import Mathlib

/-!
Verification of the AWS_AI_MANAGER conversational provisioning front-end.

This file gives a shallow embedding of the repository's own logic — the
conversation-flow state machine of `utils/conversation_handler.py`, the
regex-dispatch layers of `utils/intent_classifier.py` and
`utils/parameter_extractor.py`, and the Terraform driver
`services/terraform_service.py` — and proves the specification claims about
them.

Modelling conventions:
* Python strings are Lean `String`s (lists of characters); `str.lower()` is
  modelled on ASCII letters, which is all the code ever manipulates.
* Calls into external systems (the `re` module's matcher, the LLM client,
  boto3, the Terraform binary, `json.loads`) are inputs of the embedded
  functions: the embedding is parameterised by the outcome of each external
  call.  All logic of the repository itself is translated directly.
* Assistant chat messages are abstracted to effect tags: the tag records
  which kind of message was produced (a parameter prompt, a configuration
  preview, ...), not its display text.
-/

namespace AwsAiManager

/-! ## Python string primitives -/

/-- Characters `str.split()` treats as whitespace. -/
def isPySpace (c : Char) : Bool :=
  c = ' ' || c = '\t' || c = '\n' || c = '\r' || c = '\x0b' || c = '\x0c'

/-- The set `[a-z0-9]`. -/
def isLowerNum (c : Char) : Bool :=
  ('a' ≤ c && c ≤ 'z') || ('0' ≤ c && c ≤ '9')

/-- Python's `needle in s` substring test, on character lists. -/
def containsSub (needle : List Char) : List Char → Bool
  | [] => needle.isEmpty
  | c :: t => needle.isPrefixOf (c :: t) || containsSub needle t

/-- Python's `needle in s` substring test, on strings. -/
def containsStr (needle s : String) : Bool :=
  containsSub needle.data s.data

/-! ## `_validate_db_identifier` (conversation_handler.py)

`return bool(re.fullmatch(r'^[a-z0-9-]+', identifier)) and '--' not in identifier`
-/

def _validate_db_identifier (identifier : String) : Bool :=
  (!identifier.data.isEmpty && identifier.data.all (fun c => isLowerNum c || c = '-'))
    && !containsStr "--" identifier

/-! ## `_validate_s3_bucket_name` (conversation_handler.py) -/

/-- Full match against `^[a-z0-9][a-z0-9-]*[a-z0-9]$`. -/
def s3_name_regex (s : List Char) : Bool :=
  decide (2 ≤ s.length)
    && (s.head?.elim false isLowerNum)
    && (s.getLast?.elim false isLowerNum)
    && s.all (fun c => isLowerNum c || c = '-')

def _validate_s3_bucket_name (bucket_name : String) : Bool :=
  if !(3 ≤ bucket_name.length && bucket_name.length ≤ 63) then false
  else if !s3_name_regex bucket_name.data then false
  else if containsStr ".." bucket_name || containsStr ".-" bucket_name
      || containsStr "-." bucket_name then false
  else if "xn--".data.isPrefixOf bucket_name.data
      || "sth-".data.isPrefixOf bucket_name.data then false
  else true

/-- C8: claim-side characterisation of a valid S3 bucket name. -/
def s3_claim_valid (s : String) : Prop :=
  3 ≤ s.length ∧ s.length ≤ 63 ∧
    (∀ c ∈ s.data, isLowerNum c = true ∨ c = '-') ∧
    (∃ c, s.data.head? = some c ∧ isLowerNum c = true) ∧
    (∃ c, s.data.getLast? = some c ∧ isLowerNum c = true) ∧
    ¬ ("xn--".data <+: s.data) ∧ ¬ ("sth-".data <+: s.data)

/-- C9: claim-side characterisation of a valid RDS DB identifier. -/
def db_id_claim_valid (s : String) : Prop :=
  s.data ≠ [] ∧ (∀ c ∈ s.data, isLowerNum c = true ∨ c = '-') ∧
    ¬ (['-', '-'] <:+: s.data)

/-! ## `_clean_extracted_value` (parameter_extractor.py)

```python
if not value: return ""
value = value.strip('"\x27')
value = ' '.join(value.split())
if not any(keyword in value.lower() for keyword in ['name', 'id', 'identifier']):
    value = value.lower()
return value
```
-/

/-- `str.lower()` on the ASCII letters (the only characters the code feeds it),
as a lookup table from uppercase to lowercase. -/
def lowerMap : List (Char × Char) :=
  [('A', 'a'), ('B', 'b'), ('C', 'c'), ('D', 'd'), ('E', 'e'), ('F', 'f'),
   ('G', 'g'), ('H', 'h'), ('I', 'i'), ('J', 'j'), ('K', 'k'), ('L', 'l'),
   ('M', 'm'), ('N', 'n'), ('O', 'o'), ('P', 'p'), ('Q', 'q'), ('R', 'r'),
   ('S', 's'), ('T', 't'), ('U', 'u'), ('V', 'v'), ('W', 'w'), ('X', 'x'),
   ('Y', 'y'), ('Z', 'z')]

def pyLowerChar (c : Char) : Char := (lowerMap.lookup c).getD c

def pyLower (s : String) : String := ⟨s.data.map pyLowerChar⟩

/-- The characters of Python's strip set `'"\x27'` (double quote, apostrophe). -/
def isQuote (c : Char) : Bool := c = '"' || c = Char.ofNat 39

/-- Python's `str.strip(chars)`: drop characters satisfying `p` from both ends. -/
def stripBy (p : Char → Bool) (l : List Char) : List Char :=
  ((l.dropWhile p).reverse.dropWhile p).reverse

/-- Worker for Python's `str.split()` (split on whitespace runs, drop empties);
`acc` holds the reversed current token. -/
def splitAux : List Char → List Char → List (List Char)
  | [], acc => if acc.isEmpty then [] else [acc.reverse]
  | c :: t, acc =>
    if isPySpace c then
      if acc.isEmpty then splitAux t [] else acc.reverse :: splitAux t []
    else splitAux t (c :: acc)

def pysplit (l : List Char) : List (List Char) := splitAux l []

/-- `' '.join(tokens)`. -/
def joinSpace : List (List Char) → List Char
  | [] => []
  | [t] => t
  | t :: ts => t ++ ' ' :: joinSpace ts

/-- `' '.join(l.split())`: whitespace normalisation. -/
def normWs (l : List Char) : List Char := joinSpace (pysplit l)

/-- `any(keyword in value.lower() for keyword in ['name', 'id', 'identifier'])` -/
def kwAny (l : List Char) : Bool :=
  (["name", "id", "identifier"].map String.data).any (fun kw => containsSub kw l)

def _clean_extracted_value (value : String) : String :=
  if value.data.isEmpty then ""
  else if kwAny ((normWs (stripBy isQuote value.data)).map pyLowerChar)
  then ⟨normWs (stripBy isQuote value.data)⟩
  else ⟨(normWs (stripBy isQuote value.data)).map pyLowerChar⟩

/-! ## Parameter extraction (parameter_extractor.py)

`self.parameter_patterns`: the regex pattern table, verbatim (apostrophes
written `\x27`).  The patterns are data here: the `re.search` matcher is an
external library and enters the embedding as a parameter producing an
optional match object. -/

def parameter_patterns : List (String × List (String × List String)) :=
  [("ec2",
    [("ec2_name",
      ["\\b(name|named|call)\\s+(it|the instance)?\\s*[\"\\\x27]?([^\"\\\x27]+)[\"\\\x27]?",
       "\\binstance\\s+name[:\\-]?\\s*[\"\\\x27]?([^\"\\\x27]+)[\"\\\x27]?"]),
     ("ec2_ami",
      ["\\bami[:\\-]?\\s*[\"\\\x27]?([^\"\\\x27]+)[\"\\\x27]?",
       "\\bami\\s+id[:\\-]?\\s*[\"\\\x27]?([^\"\\\x27]+)[\"\\\x27]?"]),
     ("ec2_type",
      ["\\b(instance\\s+)?type[:\\-]?\\s*[\"\\\x27]?([^\"\\\x27]+)[\"\\\x27]?",
       "\\b(t2|t3|m5|m6|c5|r5|i3)\\.(\\w+)",
       "\\b(micro|small|medium|large|xlarge|2xlarge|4xlarge|8xlarge|12xlarge|16xlarge|24xlarge)\\b"]),
     ("vol1_root_size",
      ["\\b(root\\s+)?volume[:\\-]?\\s*(\\d+)\\s*(gb|gigabytes?)",
       "\\bdisk[:\\-]?\\s*(\\d+)\\s*(gb|gigabytes?)",
       "\\bstorage[:\\-]?\\s*(\\d+)\\s*(gb|gigabytes?)",
       "\\broot\\s+disk\\s+as\\s+(\\d+)\\s*(gb|gigabytes?)",
       "\\broot\\s+disk[:\\-]?\\s*(\\d+)\\s*(gb|gigabytes?)",
       "[,;]?\\s*root\\s+disk[:\\-]?\\s*(\\d+)\\s*(gb|gigabytes?)",
       "[,;]?\\s*root\\s+volume[:\\-]?\\s*(\\d+)\\s*(gb|gigabytes?)"]),
     ("vol1_volume_type",
      ["\\bvolume\\s+type[:\\-]?\\s*[\"\\\x27]?([^\"\\\x27]+)[\"\\\x27]?",
       "\\b(gp2|gp3|io1|io2|standard|st1|sc1)\\b"]),
     ("ec2_availabilityzone",
      ["\\b(availability\\s+)?zone[:\\-]?\\s*[\"\\\x27]?([^\"\\\x27]+)[\"\\\x27]?",
       "\\b(az|zone)[:\\-]?\\s*[\"\\\x27]?([^\"\\\x27]+)[\"\\\x27]?"]),
     ("ec2_ebs2_data_size",
      ["\\bdata\\s+(disk|volume)[:\\-]?\\s*(\\d+)\\s*(gb|gigabytes?)",
       "\\bdata\\s+size[:\\-]?\\s*(\\d+)\\s*(gb|gigabytes?)",
       "\\bebs2[:\\-]?\\s*(\\d+)\\s*(gb|gigabytes?)",
       "\\bdata\\s+disk\\s+as\\s+(\\d+)\\s*(gb|gigabytes?)",
       "\\bdata\\s+disk[:\\-]?\\s*(\\d+)\\s*(gb|gigabytes?)"])]),
   ("s3",
    [("bucket_name",
      ["\\bbucket[:\\-]?\\s*(name)?[:\\-]?\\s*[\"\\\x27]?([^\"\\\x27]+)[\"\\\x27]?",
       "\\b(name|named|call)\\s+(it|the bucket)?\\s*[\"\\\x27]?([^\"\\\x27]+)[\"\\\x27]?"])]),
   ("rds",
    [("db_identifier",
      ["\\b(identifier|id)[:\\-]?\\s*[\"\\\x27]?([^\"\\\x27]+)[\"\\\x27]?",
       "\\b(name|named|call)\\s+(it|the database)?\\s*[\"\\\x27]?([^\"\\\x27]+)[\"\\\x27]?"]),
     ("db_engine",
      ["\\bengine[:\\-]?\\s*[\"\\\x27]?([^\"\\\x27]+)[\"\\\x27]?",
       "\\b(mysql|postgres|aurora|mariadb|oracle|sqlserver)\\b"]),
     ("db_engine_version",
      ["\\bversion[:\\-]?\\s*[\"\\\x27]?([^\"\\\x27]+)[\"\\\x27]?",
       "\\b(\\d+\\.\\d+|\\d+\\.\\d+\\.\\d+)\\b"]),
     ("db_instance_class",
      ["\\binstance\\s+class[:\\-]?\\s*[\"\\\x27]?([^\"\\\x27]+)[\"\\\x27]?",
       "\\b(db\\.(t2|t3|m5|m6|c5|r5))\\.(\\w+)\\b"]),
     ("allocated_storage",
      ["\\b(storage|allocated)[:\\-]?\\s*(\\d+)\\s*(gb|gigabytes?)",
       "\\bsize[:\\-]?\\s*(\\d+)\\s*(gb|gigabytes?)"]),
     ("db_username",
      ["\\b(username|user)[:\\-]?\\s*[\"\\\x27]?([^\"\\\x27]+)[\"\\\x27]?",
       "\\buser[:\\-]?\\s*[\"\\\x27]?([^\"\\\x27]+)[\"\\\x27]?"]),
     ("db_password",
      ["\\bpassword[:\\-]?\\s*[\"\\\x27]?([^\"\\\x27]+)[\"\\\x27]?",
       "\\bpass[:\\-]?\\s*[\"\\\x27]?([^\"\\\x27]+)[\"\\\x27]?"])]),
   ("dynamodb",
    [("table_name",
      ["\\btable[:\\-]?\\s*(name)?[:\\-]?\\s*[\"\\\x27]?([^\"\\\x27]+)[\"\\\x27]?",
       "\\b(name|named|call)\\s+(it|the table)?\\s*[\"\\\x27]?([^\"\\\x27]+)[\"\\\x27]?"]),
     ("hash_key_name",
      ["\\bhash\\s+key[:\\-]?\\s*(name)?[:\\-]?\\s*[\"\\\x27]?([^\"\\\x27]+)[\"\\\x27]?",
       "\\bprimary\\s+key[:\\-]?\\s*(name)?[:\\-]?\\s*[\"\\\x27]?([^\"\\\x27]+)[\"\\\x27]?"]),
     ("hash_key_type",
      ["\\bhash\\s+key[:\\-]?\\s*type[:\\-]?\\s*[\"\\\x27]?([^\"\\\x27]+)[\"\\\x27]?",
       "\\bkey\\s+type[:\\-]?\\s*[\"\\\x27]?([^\"\\\x27]+)[\"\\\x27]?",
       "\\b(S|N|B)\\b"])])]

/-- Python dictionaries of extracted parameters: insertion-ordered key/value
lists with unique keys. -/
abbrev Params := List (String × String)

/-- Python dict assignment `d[k] = v`: replace in place or append. -/
def setParam : Params → String → String → Params
  | [], k, v => [(k, v)]
  | p :: t, k, v => if p.1 = k then (k, v) :: t else p :: setParam t k v

/-- A `re` match object: `group(0)`, the numbered groups (`none` = group did
not participate), and `lastindex` (highest matched group index, `0` encoding
Python's `None`). -/
structure ReMatch where
  group0 : String
  groups : List (Option String)
  lastindex : Nat

/-- `match.group(i)`. -/
def mgroup (m : ReMatch) (i : Nat) : Option String :=
  if i = 0 then some m.group0 else (m.groups.get? (i - 1)).join

/-- Python's `str.isdigit()` (ASCII digits). -/
def pyIsdigit (s : String) : Bool := !s.data.isEmpty && s.data.all Char.isDigit

/-- Python's no-argument `str.strip()`. -/
def pyStrip (s : String) : String := ⟨stripBy isPySpace s.data⟩

def units_list : List String := ["gb", "gigabytes", "mb", "megabytes", "tb", "terabytes"]

def prefixes_list : List String := ["root", "data", "storage", "volume", "disk", "size"]

/-- The final unit/noise-skipping scan of `_extract_value_from_match`:
walk groups from `lastindex` down to 1, returning the first participating
group that is not a unit or noise word; fall back to `group(lastindex)`. -/
def generalScan (m : ReMatch) : String :=
  match ((List.range' 1 m.lastindex).reverse).findSome? (fun i =>
    match mgroup m i with
    | some g =>
      if !g.data.isEmpty then
        let gl := pyStrip (pyLower g)
        if !(units_list.contains gl) && !(prefixes_list.contains gl)
        then some (pyStrip g) else none
      else none
    | none => none) with
  | some v => v
  | none => pyStrip ((mgroup m m.lastindex).getD "")

def _extract_value_from_match (m : ReMatch) (param_name : String) : String :=
  if m.lastindex = 0 then pyStrip m.group0
  else if param_name = "vol1_root_size" || param_name = "allocated_storage"
      || param_name = "ec2_ebs2_data_size" then
    match (List.range' 1 m.lastindex).findSome? (fun i =>
      match mgroup m i with
      | some g => if !g.data.isEmpty && pyIsdigit g then some (pyStrip g) else none
      | none => none) with
    | some v => v
    | none => generalScan m
  else if param_name = "vol1_volume_type" then
    if 1 ≤ m.lastindex then
      match mgroup m 1 with
      | some g => if !g.data.isEmpty then pyStrip g else pyStrip m.group0
      | none => pyStrip m.group0
    else pyStrip m.group0
  else generalScan m

/-- The inner pattern loop of `extract_parameters_regex` for one parameter:
try the patterns in order and stop at the first whose match cleans to a
non-empty value. -/
def extractLoop (search : String → String → Option ReMatch) (ml : String)
    (pname : String) (acc : Params) : List String → Params
  | [] => acc
  | p :: rest =>
    match search p ml with
    | some m =>
      let v := _clean_extracted_value (_extract_value_from_match m pname)
      if !v.data.isEmpty then setParam acc pname v
      else extractLoop search ml pname acc rest
    | none => extractLoop search ml pname acc rest

/-- `extract_parameters_regex(message, resource_type)`, parameterised by the
outcome `search pattern message_lower` of `re.search(pattern, message_lower,
re.IGNORECASE)`. -/
def extract_parameters_regex (search : String → String → Option ReMatch)
    (message resource_type : String) : Params :=
  match parameter_patterns.lookup resource_type with
  | none => []
  | some pats =>
    pats.foldl (fun acc pp => extractLoop search (pyLower message) pp.1 acc pp.2) []

/-- C6 claim-side: the value bound to a parameter is the cleaned value of the
first pattern (in table order) that matches and cleans to non-empty. -/
def specFirstValue (search : String → String → Option ReMatch) (ml : String)
    (pname : String) (pats : List String) : Option String :=
  pats.findSome? (fun p => (search p ml).bind (fun m =>
    let v := _clean_extracted_value (_extract_value_from_match m pname)
    if !v.data.isEmpty then some v else none))

/-! ## `get_missing_parameters` (parameter_extractor.py) -/

def required_mapping : List (String × List String) :=
  [("ec2", ["ec2_name", "ec2_ami", "ec2_type", "vol1_volume_type", "ec2_availabilityzone"]),
   ("s3", ["bucket_name"]),
   ("rds", ["db_identifier", "db_engine", "db_engine_version", "db_instance_class",
            "allocated_storage", "db_username", "db_password"]),
   ("dynamodb", ["table_name", "hash_key_name", "hash_key_type"])]

def get_missing_parameters (extracted_params : Params) (resource_type : String) :
    List String :=
  if (parameter_patterns.lookup resource_type).isNone then []
  else
    ((required_mapping.lookup resource_type).getD []).filter
      (fun param =>
        match extracted_params.lookup param with
        | none => true
        | some v => v.data.isEmpty)

/-- C7 claim-side: a parameter is missing when absent or bound to a falsy
(empty) value. -/
def missingB (d : Params) (p : String) : Bool :=
  match d.lookup p with
  | none => true
  | some v => v == ""

/-! ## Intent classification (intent_classifier.py)

`self.intent_patterns`, verbatim, in the insertion order Python iterates the
dictionary. -/

def intent_patterns : List (String × List String) :=
  [("create_ec2",
    ["\\b(create|build|launch|provision)\\s+(an?\\s+)?(ec2|instance)\\b",
     "\\b(make|setup|deploy)\\s+(an?\\s+)?ec2\\b",
     "\\bspin\\s+up\\s+(an?\\s+)?ec2\\b"]),
   ("create_s3",
    ["\\b(create|make|build)\\s+(an?\\s+)?s3(\\s+bucket)?\\b",
     "\\b(set\\s+up|provision)\\s+(an?\\s+)?s3\\b"]),
   ("create_rds",
    ["\\b(create|make|build|provision)\\s+(an?\\s+)?rds(\\s+instance)?\\b",
     "\\b(set\\s+up|deploy)\\s+(an?\\s+)?rds\\b"]),
   ("create_dynamodb",
    ["\\b(create|make|build)\\s+(a\\s+)?dynamodb(\\s+table)?\\b",
     "\\b(set\\s+up|provision)\\s+(a\\s+)?dynamodb\\b"]),
   ("create_iam_user", ["\\b(create|make|add)\\s+(an?\\s+)?iam\\s+user\\b"]),
   ("create_iam_role", ["\\b(create|make|add)\\s+(an?\\s+)?iam\\s+role\\b"]),
   ("create_iam_policy", ["\\b(create|make|add)\\s+(an?\\s+)?iam\\s+policy\\b"]),
   ("destroy_ec2", ["\\b(destroy|delete|terminate|remove)\\s+(an?\\s+)?(ec2|instance)\\b"]),
   ("destroy_s3", ["\\b(destroy|delete|remove)\\s+(an?\\s+)?s3(\\s+bucket)?\\b"]),
   ("destroy_rds", ["\\b(destroy|delete|terminate|remove)\\s+(an?\\s+)?rds(\\s+instance)?\\b"]),
   ("destroy_dynamodb", ["\\b(destroy|delete|remove)\\s+(a\\s+)?dynamodb(\\s+table)?\\b"]),
   ("destroy_iam_user", ["\\b(destroy|delete|remove)\\s+(an?\\s+)?iam\\s+user\\b"]),
   ("destroy_iam_role", ["\\b(destroy|delete|remove)\\s+(an?\\s+)?iam\\s+role\\b"]),
   ("destroy_iam_policy", ["\\b(destroy|delete|remove)\\s+(an?\\s+)?iam\\s+policy\\b"]),
   ("list_ec2", ["\\b(list|show|display)\\s+(all\\s+)?(ec2|instance)s?\\b"]),
   ("list_s3", ["\\b(list|show|display)\\s+(all\\s+)?s3(\\s+buckets?)?\\b"]),
   ("list_rds", ["\\b(list|show|display)\\s+(all\\s+)?rds(\\s+instances?)?\\b"]),
   ("list_dynamodb", ["\\b(list|show|display)\\s+(all\\s+)?dynamodb(\\s+tables?)?\\b"]),
   ("list_iam_user", ["\\b(list|show|display)\\s+(all\\s+)?iam\\s+users?\\b"]),
   ("list_iam_role", ["\\b(list|show|display)\\s+(all\\s+)?iam\\s+roles?\\b"]),
   ("list_iam_policy", ["\\b(list|show|display)\\s+(all\\s+)?iam\\s+policies?\\b"]),
   ("modify_ec2", ["\\b(modify|change|update|edit)\\s+(an?\\s+)?(ec2|instance)\\b"]),
   ("cost_estimation",
    ["\\b(cost|estimate|pricing)\\s+(of|for)\\b", "\\bhow\\s+much\\s+(does|will)\\b"]),
   ("help", ["\\b(help|assist|support)\\b", "\\bwhat\\s+can\\s+you\\s+do\\b"]),
   ("status", ["\\b(status|health|check)\\b"])]

/-- Python truthiness of an optional string (`None` and `''` are falsy). -/
def optTruthy : Option String → Bool
  | none => false
  | some s => !s.data.isEmpty

/-- `classify_intent_regex(message)`, parameterised by the boolean outcome
`searchB pattern message_lower` of `re.search(pattern, message_lower)`:
first intent (in table order) with a matching pattern, at confidence 0.8. -/
def classify_intent_regex (searchB : String → String → Bool) (message : String) :
    Option String × ℚ :=
  match intent_patterns.find? (fun ip => ip.2.any (fun p => searchB p (pyLower message))) with
  | some ip => (some ip.1, (0.8 : ℚ))
  | none => (none, 0)

/-- `classify_intent_hybrid(message)`: `ai` is the triple that
`classify_intent_ai` (the LLM call) would return. -/
def classify_intent_hybrid (searchB : String → String → Bool)
    (ai : Option String × ℚ × Params) (message : String) : Option String × ℚ × Params :=
  if (classify_intent_regex searchB message).2 ≥ 0.8 then
    ((classify_intent_regex searchB message).1,
     (classify_intent_regex searchB message).2, [])
  else if ai.2.1 > (classify_intent_regex searchB message).2 then ai
  else if optTruthy (classify_intent_regex searchB message).1
      && (!optTruthy ai.1 || ai.1 == some "unknown") then
    ((classify_intent_regex searchB message).1,
     (classify_intent_regex searchB message).2, [])
  else if optTruthy ai.1 && !(ai.1 == some "unknown") then ai
  else (some "unknown", 0, [])

/-- C5 claim-side: some regex pattern matches the lowercased message. -/
def intentAnyMatch (searchB : String → String → Bool) (message : String) : Bool :=
  intent_patterns.any (fun ip => ip.2.any (fun p => searchB p (pyLower message)))

/-- C5 claim-side: the first matching intent in table order. -/
def specFirstIntent (searchB : String → String → Bool) (message : String) :
    Option String :=
  (intent_patterns.find? (fun ip => ip.2.any (fun p => searchB p (pyLower message)))).map
    Prod.fst

/-- C5 claim-side: the LLM-combination branch of the hybrid classifier, taken
when no regex pattern matches. -/
def aiCombine (ai : Option String × ℚ × Params) : Option String × ℚ × Params :=
  if ai.2.1 > 0 then ai
  else if optTruthy ai.1 && !(ai.1 == some "unknown") then ai
  else (some "unknown", 0, [])

/-! ## `_run_terraform_apply` (terraform_service.py)

The Terraform binary and `json.loads` are external: the embedding takes the
exit codes of `terraform init` / `terraform apply`, the outcome of the
`subprocess.run(["terraform", "output", "-json"], check=True)` call
(`Except.error` = `CalledProcessError`), and the parser `loads` standing for
`json.loads` on the captured stdout.  Every `raise` becomes `Except.error`. -/

inductive JsonVal where
  | null : JsonVal
  | bool (b : Bool) : JsonVal
  | num (q : ℚ) : JsonVal
  | str (s : String) : JsonVal
  | arr (elems : List JsonVal) : JsonVal
  | obj (fields : List (String × JsonVal)) : JsonVal

structure SubprocResult where
  stdout : String
  stderr : String

structure TfEnv where
  initCode : Int
  applyCode : Int
  outputResult : Except SubprocResult SubprocResult

def exceptIsError {ε α : Type} : Except ε α → Bool
  | Except.error _ => true
  | Except.ok _ => false

/-- `data['value']`: succeeds only on a JSON object with a `"value"` key. -/
def jsonValueField : JsonVal → Option JsonVal
  | JsonVal.obj fields => fields.lookup "value"
  | _ => none

/-- `{key: data['value'] for key, data in parsed_output.items()}`: aborts on
the first entry without a `'value'` field (Python's `KeyError`/`TypeError`). -/
def extractOutputsList : List (String × JsonVal) → Option (List (String × JsonVal))
  | [] => some []
  | kv :: rest =>
    match jsonValueField kv.2 with
    | none => none
    | some v =>
      match extractOutputsList rest with
      | none => none
      | some out => some ((kv.1, v) :: out)

/-- `parsed_output.items()` requires a JSON object (otherwise Python raises
`AttributeError`, caught by the blanket `except`). -/
def extractOutputs : JsonVal → Option (List (String × JsonVal))
  | JsonVal.obj fields => extractOutputsList fields
  | _ => none

/-- `not stdout_str.strip()`. -/
def pyBlank (s : String) : Bool := s.data.all isPySpace

def _run_terraform_apply (loads : String → Option JsonVal) (env : TfEnv) :
    Except String (List (String × JsonVal)) :=
  if env.initCode ≠ 0 then Except.error "Terraform init failed"
  else if env.applyCode ≠ 0 then Except.error "Terraform apply failed"
  else
    match env.outputResult with
    | Except.error _ => Except.error "terraform output -json failed"
    | Except.ok r =>
      if pyBlank r.stdout then Except.error "Terraform output is empty"
      else
        match loads r.stdout with
        | none => Except.error "Failed to parse Terraform JSON output"
        | some parsed =>
          match extractOutputs parsed with
          | none => Except.error "Error processing Terraform output"
          | some outputs => Except.ok outputs

/-- A concrete `json.loads` outcome for the C2 counterexample: the stdout
`{"a": 1}` parses to the JSON object with entry `a ↦ 1` (exactly what
`json.loads` returns on that string). -/
def loads0 : String → Option JsonVal := fun s =>
  if s = "\x7b\"a\": 1\x7d" then some (JsonVal.obj [("a", JsonVal.num 1)]) else none

def env0 : TfEnv := ⟨0, 0, Except.ok ⟨"\x7b\"a\": 1\x7d", ""⟩⟩

/-! ## The create-resource conversation flow (conversation_handler.py)

State machine of `handle_create_resource_flow` / `_execute_create_resource`.
`st.session_state.conversation_flow` becomes the `Flow` record (one field per
dictionary key the code uses, `Option` for keys that may be absent/None);
assistant messages become `Effect` tags; the Terraform create call and the
AWS version query are environment parameters.  Prompt texts are abstracted:
`RESOURCE_PARAMS` keeps the parameter names in their source order. -/

def RESOURCE_PARAMS : List (String × List String) :=
  [("ec2", ["ec2_availabilityzone", "ec2_name", "ec2_ami", "ec2_type",
            "vol1_root_size", "vol1_volume_type", "ec2_ebs2_data_size"]),
   ("s3", ["bucket_name"]),
   ("rds", ["db_identifier", "db_engine", "db_engine_version", "db_instance_class",
            "allocated_storage", "db_username", "db_password", "db_publicly_accessible"]),
   ("dynamodb", ["table_name", "hash_key_name", "hash_key_type"]),
   ("iam_user", ["user_name"]),
   ("iam_role", ["role_name"]),
   ("iam_policy", ["policy_name", "policy_description", "policy_document"])]

def PARAMETER_ALIASES : List (String × List (String × String)) :=
  [("ec2",
    [("name", "ec2_name"), ("instance name", "ec2_name"), ("type", "ec2_type"),
     ("instance type", "ec2_type"), ("ami", "ec2_ami"), ("ami id", "ec2_ami"),
     ("root volume size", "vol1_root_size"), ("volume size", "vol1_root_size"),
     ("root volume type", "vol1_volume_type"), ("volume type", "vol1_volume_type"),
     ("data volume size", "ec2_ebs2_data_size"),
     ("availability zone", "ec2_availabilityzone"), ("az", "ec2_availabilityzone")]),
   ("s3", [("name", "bucket_name"), ("bucket name", "bucket_name")]),
   ("rds",
    [("username", "db_username"), ("master username", "db_username"),
     ("password", "db_password"), ("master password", "db_password"),
     ("engine", "db_engine"), ("engine version", "db_engine_version"),
     ("instance class", "db_instance_class"), ("allocated storage", "allocated_storage"),
     ("identifier", "db_identifier"), ("publicly accessible", "db_publicly_accessible")]),
   ("dynamodb",
    [("table name", "table_name"), ("hash key name", "hash_key_name"),
     ("hash key type", "hash_key_type")]),
   ("iam_user", [("user name", "user_name")]),
   ("iam_role", [("role name", "role_name")]),
   ("iam_policy",
    [("policy name", "policy_name"), ("policy description", "policy_description"),
     ("policy document", "policy_document")])]

/-- `param_keywords` of `_find_parameter_by_input`. -/
def param_keywords : List (String × List String) :=
  [("ec2_name", ["name", "instance name", "server name", "ec2 name"]),
   ("ec2_ami", ["ami", "ami id", "image", "image id", "amazon machine image"]),
   ("ec2_type", ["type", "instance type", "size", "instance size", "machine type"]),
   ("ec2_availabilityzone", ["zone", "availability zone", "az", "region zone"]),
   ("vol1_root_size", ["root", "root size", "volume size", "disk size", "root disk",
                       "boot volume"]),
   ("vol1_volume_type", ["volume type", "disk type", "storage type", "root volume type"]),
   ("ec2_ebs2_data_size", ["data", "data size", "data volume", "additional storage",
                           "ebs size"]),
   ("bucket_name", ["bucket", "bucket name", "s3 bucket", "storage bucket"]),
   ("db_identifier", ["identifier", "db name", "database name", "db identifier",
                      "rds name"]),
   ("db_engine", ["engine", "database engine", "db engine", "rds engine"]),
   ("db_engine_version", ["version", "engine version", "db version", "rds version"]),
   ("db_instance_class", ["class", "instance class", "db class", "rds class", "size"]),
   ("allocated_storage", ["storage", "allocated storage", "db storage", "disk size"]),
   ("db_username", ["username", "user", "db user", "database user", "admin user"]),
   ("db_password", ["password", "db password", "database password", "admin password"]),
   ("db_publicly_accessible", ["public", "publicly accessible", "public access",
                               "internet access"]),
   ("table_name", ["table", "table name", "dynamodb table"]),
   ("hash_key_name", ["hash key", "key name", "primary key", "partition key"]),
   ("hash_key_type", ["key type", "hash key type", "attribute type", "data type"])]

/-- Key membership in a parameter dictionary. -/
def hasParam (params : Params) (k : String) : Bool := params.any (fun p => p.1 == k)

def _find_parameter_by_input (user_input resource_type : String)
    (current_params : Params) : Option String :=
  let user_input_lower := pyStrip (pyLower user_input)
  let aliases := (PARAMETER_ALIASES.lookup resource_type).getD []
  match aliases.find? (fun ap => ap.1 == user_input_lower) with
  | some ap => some ap.2
  | none =>
    match current_params.find? (fun p => pyLower p.1 == user_input_lower) with
    | some p => some p.1
    | none =>
      param_keywords.findSome? (fun pk =>
        if hasParam current_params pk.1 then
          if pk.2.any (fun kw => containsStr kw user_input_lower) then some pk.1
          else none
        else none)

/-! Validators from terraform_service.py used during parameter collection. -/

def isHexDigit (c : Char) : Bool :=
  c.isDigit || ('a' ≤ c && c ≤ 'f') || ('A' ≤ c && c ≤ 'F')

/-- Full match against `^ami-[0-9a-fA-F]{8}([0-9a-fA-F]{9})?$`. -/
def _validate_ami_id (ami_id : String) : Bool :=
  "ami-".data.isPrefixOf ami_id.data
    && (let rest := ami_id.data.drop 4
        (rest.length == 8 || rest.length == 17) && rest.all isHexDigit)

def _validate_instance_type (instance_type : String) : Bool :=
  ["t2.micro", "t2.small", "t2.medium", "t3.micro", "m5.large",
   "c5.xlarge"].contains instance_type

def _validate_volume_type (volume_type : String) : Bool :=
  ["gp2", "gp3", "io1", "io2", "st1", "sc1", "standard"].contains volume_type

/-- Python's `int(s)` on a stripped string. -/
def pyParseInt (s : String) : Option Int :=
  let t := (pyStrip s).data
  match t with
  | '-' :: rest =>
    if !rest.isEmpty && rest.all Char.isDigit
    then some (-(rest.foldl (fun acc c => acc * 10 + (c.toNat - 48)) 0 : Nat))
    else none
  | '+' :: rest =>
    if !rest.isEmpty && rest.all Char.isDigit
    then some ((rest.foldl (fun acc c => acc * 10 + (c.toNat - 48)) 0 : Nat))
    else none
  | l =>
    if !l.isEmpty && l.all Char.isDigit
    then some ((l.foldl (fun acc c => acc * 10 + (c.toNat - 48)) 0 : Nat))
    else none

/-- Effects visible to the user/infrastructure in one flow step.  Message
texts are abstracted: `ask p` is the prompt requesting parameter `p`,
`preview` the configuration preview, `create ps` the call
`create_<type>(**ps)` into terraform_service, `note` any other assistant
message. -/
inductive Effect where
  | ask (param : String) : Effect
  | preview : Effect
  | create (params : Params) : Effect
  | note : Effect
deriving DecidableEq

/-- `st.session_state.conversation_flow` for a create_resource flow. -/
structure Flow where
  active : Bool
  resource_type : String
  params : Params
  current_param_index : Option Nat
  current_param_name : Option String
  awaiting_confirmation : Bool
  confirmed : Bool
  preview_shown : Bool
  awaiting_param_modification_decision : Bool
  awaiting_new_param_value : Bool
  param_to_modify : Option String
  awaiting_param_to_modify : Bool
  error_occurred : Bool
  awaiting_version_selection : Bool
  supported_versions : List String
  enhanced_flow : Bool
deriving DecidableEq

/-- Outcomes of the external calls the flow makes: the Terraform create run
(`Except.error` = raised exception) and
`terraform_service.get_supported_rds_engine_versions`. -/
structure FlowEnv where
  createResult : Params → Except String Params
  supportedVersions : String → String → List String

/-- The skip loop at the top of `handle_create_resource_flow`: advance the
index past parameters already present in `params`. -/
def skipProvided (ps : List String) (params : Params) (i : Nat) : Nat :=
  if h : i < ps.length then
    if hasParam params (ps.get ⟨i, h⟩) then skipProvided ps params (i + 1)
    else i
  else i
termination_by ps.length - i

def _show_resource_preview (flow : Flow) : Flow × List Effect :=
  ({ flow with awaiting_confirmation := true }, [Effect.preview])

def _execute_create_resource (env : FlowEnv) (flow : Flow) : Flow × List Effect :=
  if !flow.preview_shown then
    let r := _show_resource_preview flow
    ({ r.1 with preview_shown := true }, r.2)
  else
    match env.createResult flow.params with
    | Except.ok _ => ({ flow with active := false }, [Effect.create flow.params, Effect.note])
    | Except.error _ =>
      ({ flow with error_occurred := true }, [Effect.create flow.params, Effect.note])

/-- The `flow.get("awaiting_confirmation")` block. -/
def confirmStage (env : FlowEnv) (st : Flow) (msg : String) : Flow × List Effect :=
  if ["yes", "y", "confirm", "proceed"].contains (pyLower msg) then
    _execute_create_resource env
      { st with awaiting_confirmation := false, confirmed := true }
  else if ["modify", "change", "edit"].contains (pyLower msg) then
    ({ st with awaiting_confirmation := false,
               awaiting_param_modification_decision := true }, [Effect.note])
  else if ["cancel", "abort", "no", "n"].contains (pyLower msg) then
    ({ st with active := false }, [Effect.note])
  else (st, [Effect.note])

/-- The `flow.get("awaiting_param_modification_decision")` block. -/
def modifyDecisionStage (st : Flow) (msg : String) : Flow × List Effect :=
  if ["list", "show", "current"].contains (pyLower msg) then (st, [Effect.note])
  else if ["done", "finished", "proceed"].contains (pyLower msg) then
    _show_resource_preview { st with awaiting_param_modification_decision := false }
  else
    match _find_parameter_by_input msg st.resource_type st.params with
    | some param =>
      ({ st with param_to_modify := some param,
                 awaiting_param_modification_decision := false,
                 awaiting_new_param_value := true }, [Effect.note])
    | none => (st, [Effect.note])

/-- The `flow.get("awaiting_new_param_value")` block. -/
def newValueStage (st : Flow) (msg : String) : Flow × List Effect :=
  ({ st with params := setParam st.params (st.param_to_modify.getD "") (pyStrip msg),
             awaiting_new_param_value := false,
             param_to_modify := none,
             awaiting_param_modification_decision := true }, [Effect.note])

/-- The `flow.get("error_occurred")` block.  Its first and third inner checks
repeat guards that already returned earlier in the function, so they are dead
at every call site; they are transcribed faithfully. -/
def errorStage (env : FlowEnv) (st : Flow) (msg : String) : Flow × List Effect :=
  if st.awaiting_param_modification_decision then
    if containsStr "yes" (pyLower msg) then
      ({ st with awaiting_param_modification_decision := false,
                 awaiting_param_to_modify := true }, [Effect.note])
    else if containsStr "no" (pyLower msg) then
      _execute_create_resource env
        { st with awaiting_param_modification_decision := false,
                  error_occurred := false }
    else (st, [Effect.note])
  else if st.awaiting_param_to_modify then
    match ((PARAMETER_ALIASES.lookup st.resource_type).getD []).lookup
        (pyLower (pyStrip msg)) with
    | some param =>
      if hasParam st.params param then
        ({ st with param_to_modify := some param,
                   awaiting_param_to_modify := false,
                   awaiting_new_param_value := true }, [Effect.note])
      else (st, [Effect.note])
    | none => (st, [Effect.note])
  else if st.awaiting_new_param_value then newValueStage st msg
  else if msg ≠ "" && containsStr "retry" (pyLower msg) then
    ({ st with awaiting_param_modification_decision := true }, [Effect.note])
  else if msg ≠ "" && containsStr "cancel" (pyLower msg) then
    ({ st with active := false, error_occurred := false }, [Effect.note])
  else (st, [Effect.note])

/-- The prompt for `params_for_resource[param_idx]` (lines 999-1038): the RDS
engine-version prompt consults the AWS API for selectable versions, every
other parameter gets its table prompt (with suggestions in enhanced flows);
in all cases the parameter at the current index is the one requested and the
index advances past it. -/
def askNext (env : FlowEnv) (st : Flow) (ps : List String) (param_idx : Nat) :
    Flow × List Effect :=
  if h : param_idx < ps.length then
    let pname := ps.get ⟨param_idx, h⟩
    if st.resource_type == "rds" && pname == "db_engine_version" then
      let engine := (st.params.lookup "db_engine").getD ""
      let instance_class := (st.params.lookup "db_instance_class").getD ""
      if engine ≠ "" && instance_class ≠ "" then
        let sv := env.supportedVersions engine instance_class
        if !sv.isEmpty then
          ({ st with awaiting_version_selection := true, supported_versions := sv,
                     current_param_index := some (param_idx + 1) }, [Effect.ask pname])
        else ({ st with current_param_index := some (param_idx + 1) }, [Effect.ask pname])
      else ({ st with current_param_index := some (param_idx + 1) }, [Effect.ask pname])
    else
      ({ st with current_param_name := some pname,
                 current_param_index := some (param_idx + 1) }, [Effect.ask pname])
  else _execute_create_resource env st

/-- Validate and store the user's answer for `prev_param_name`, then ask the
next parameter (lines 967-1041; a failed validation re-prompts and returns). -/
def storeAndAsk (env : FlowEnv) (st : Flow) (msg prev_param_name : String)
    (ps : List String) (param_idx : Nat) : Flow × List Effect :=
  if st.resource_type == "rds" && prev_param_name == "db_identifier"
      && !_validate_db_identifier msg then (st, [Effect.note])
  else if st.resource_type == "ec2" && prev_param_name == "ec2_ami"
      && !_validate_ami_id msg then (st, [Effect.note])
  else if st.resource_type == "ec2" && prev_param_name == "ec2_type"
      && !_validate_instance_type msg then (st, [Effect.note])
  else if st.resource_type == "ec2" && prev_param_name == "vol1_volume_type"
      && !_validate_volume_type msg then (st, [Effect.note])
  else
    askNext env
      { st with params := setParam st.params prev_param_name msg,
                current_param_name := none } ps param_idx

/-- Which parameter the incoming message answers: `current_param_name` when
set, otherwise derived from the (already advanced) index. -/
def resolveParamName (st : Flow) (ps : List String) (param_idx : Nat) : Option String :=
  if optTruthy st.current_param_name then st.current_param_name
  else if param_idx > 0 then ps.get? (param_idx - 1)
  else if param_idx < ps.length then ps.get? param_idx
  else none

def collectStage (env : FlowEnv) (st : Flow) (msg : String) (ps : List String) :
    Flow × List Effect :=
  if msg ≠ "" then
    match resolveParamName st ps (st.current_param_index.getD 0) with
    | none => (st, [Effect.note])
    | some prev_param_name =>
      if st.resource_type == "rds" && st.awaiting_version_selection then
        match pyParseInt (pyStrip msg) with
        | none =>
          ({ st with current_param_index := some (st.current_param_index.getD 0 - 1) },
           [Effect.note])
        | some n =>
          if 0 ≤ n - 1 && n - 1 < (st.supported_versions.length : Int) then
            storeAndAsk env
              { st with awaiting_version_selection := false, supported_versions := [] }
              ((st.supported_versions.get? (n - 1).toNat).getD "")
              prev_param_name ps (st.current_param_index.getD 0)
          else
            ({ st with current_param_index := some (st.current_param_index.getD 0 - 1) },
             [Effect.note])
      else storeAndAsk env st msg prev_param_name ps (st.current_param_index.getD 0)
  else askNext env st ps (st.current_param_index.getD 0)

/-- The skip loop at the entry of `handle_create_resource_flow`, as a state
transformation (only `current_param_index` changes, and only when the key is
present, mirroring `if flow.get("current_param_index") is not None`). -/
def skipState (st0 : Flow) : Flow :=
  match st0.current_param_index with
  | some i =>
    { st0 with current_param_index := some (skipProvided ((RESOURCE_PARAMS.lookup st0.resource_type).getD []) st0.params i) }
  | none => st0

def handle_create_resource_flow (env : FlowEnv) (st0 : Flow) (msg : String) :
    Flow × List Effect :=
  if (skipState st0).awaiting_confirmation then confirmStage env (skipState st0) msg
  else if (skipState st0).awaiting_param_modification_decision then
    modifyDecisionStage (skipState st0) msg
  else if (skipState st0).awaiting_new_param_value then newValueStage (skipState st0) msg
  else if (skipState st0).error_occurred then errorStage env (skipState st0) msg
  else collectStage env (skipState st0) msg
    ((RESOURCE_PARAMS.lookup st0.resource_type).getD [])

/-- One user turn against the create-resource flow: an inactive flow is never
re-entered (`execute_user_action` routes to intent recognition instead). -/
def create_flow_step (env : FlowEnv) (st : Flow) (msg : String) : Flow × List Effect :=
  if st.active then handle_create_resource_flow env st msg else (st, [])

def runFlow (env : FlowEnv) (st : Flow) : List String → Flow × List Effect
  | [] => (st, [])
  | m :: ms =>
    let r1 := create_flow_step env st m
    let r2 := runFlow env r1.1 ms
    (r2.1, r1.2 ++ r2.2)

def isCreateEff : Effect → Bool
  | Effect.create _ => true
  | _ => false

/-- Some Terraform create call occurs in the effect list. -/
def hasCreate (effs : List Effect) : Bool := effs.any isCreateEff

def yesWords : List String := ["yes", "y", "confirm", "proceed"]

def cancelWords : List String := ["cancel", "abort", "no", "n"]

/-- Reachability invariant of the create flow: whenever the preview has been
shown, the flow is waiting at the confirmation gate, inside the parameter
modification dialogue, or in error recovery. -/
def FlowInv (st : Flow) : Prop :=
  st.active = true → st.preview_shown = true →
    (st.awaiting_confirmation = true ∨ st.awaiting_param_modification_decision = true ∨
     st.awaiting_new_param_value = true ∨ st.error_occurred = true)

/-- The state reached right after a failed creation attempt: active, in error
recovery, no sub-dialogue armed, preview shown, all parameters collected. -/
def ErrorIdle (st : Flow) : Prop :=
  st.active = true ∧ st.awaiting_confirmation = false ∧
  st.awaiting_param_modification_decision = false ∧
  st.awaiting_new_param_value = false ∧ st.awaiting_param_to_modify = false ∧
  st.error_occurred = true ∧ st.preview_shown = true ∧
  st.current_param_index = some ((RESOURCE_PARAMS.lookup st.resource_type).getD []).length

/-! Concrete environments and states used by the witnesses. -/

def envW : FlowEnv := ⟨fun ps => Except.ok ps, fun _ _ => []⟩

def envWfail : FlowEnv := ⟨fun _ => Except.error "AccessDenied", fun _ _ => []⟩

def stConfirmW : Flow :=
  { active := true, resource_type := "s3", params := [("bucket_name", "b1")],
    current_param_index := some 1, current_param_name := none,
    awaiting_confirmation := true, confirmed := false, preview_shown := true,
    awaiting_param_modification_decision := false, awaiting_new_param_value := false,
    param_to_modify := none, awaiting_param_to_modify := false, error_occurred := false,
    awaiting_version_selection := false, supported_versions := [], enhanced_flow := false }

def stErrorW : Flow :=
  { active := true, resource_type := "s3", params := [("bucket_name", "b1")],
    current_param_index := some 1, current_param_name := none,
    awaiting_confirmation := false, confirmed := true, preview_shown := true,
    awaiting_param_modification_decision := false, awaiting_new_param_value := false,
    param_to_modify := none, awaiting_param_to_modify := false, error_occurred := true,
    awaiting_version_selection := false, supported_versions := [], enhanced_flow := false }

def stCollectW : Flow :=
  { active := true, resource_type := "dynamodb", params := [("table_name", "t1")],
    current_param_index := some 0, current_param_name := none,
    awaiting_confirmation := false, confirmed := false, preview_shown := false,
    awaiting_param_modification_decision := false, awaiting_new_param_value := false,
    param_to_modify := none, awaiting_param_to_modify := false, error_occurred := false,
    awaiting_version_selection := false, supported_versions := [], enhanced_flow := false }

/-! # Theorems -/

/-- The head character of a non-empty substring occurs in the list. -/
theorem containsSub_head_mem {c : Char} {m l : List Char}
    (h : containsSub (c :: m) l = true) : c ∈ l := by
  induction l with
  | nil => simp [containsSub, List.isEmpty] at h
  | cons a t ih =>
    simp only [containsSub, Bool.or_eq_true] at h
    rcases h with h | h
    · have : c = a := by
        cases hca : c == a with
        | false => simp [List.isPrefixOf, hca] at h
        | true => exact eq_of_beq hca
      simp [this]
    · exact List.mem_cons_of_mem _ (ih h)

/-- `containsSub` agrees with the mathematical infix relation. -/
theorem containsSub_sublist_iff {needle l : List Char} :
    containsSub needle l = true ↔ needle <:+: l := by
  induction l with
  | nil =>
    simp [containsSub, List.isEmpty_iff, List.infix_nil]
  | cons a t ih =>
    simp only [containsSub, Bool.or_eq_true, List.isPrefixOf_iff_prefix, ih,
      List.infix_cons_iff]

/-- A list of characters drawn from `[a-z0-9-]` contains no period, so no
substring involving `'.'` can occur in it. -/
theorem no_dot_sub {l : List Char} (hall : ∀ c ∈ l, isLowerNum c = true ∨ c = '-')
    {m : List Char} : containsSub ('.' :: m) l = false := by
  by_contra h
  have hmem := containsSub_head_mem (Bool.of_not_eq_false h)
  rcases hall _ hmem with h1 | h1
  · exact absurd h1 (by decide)
  · exact absurd h1 (by decide)

theorem no_dot_sub' {l : List Char} (hall : ∀ c ∈ l, isLowerNum c = true ∨ c = '-')
    {m : List Char} : containsSub ('-' :: '.' :: m) l = false := by
  by_contra h
  have h' := Bool.of_not_eq_false h
  have : ('-' :: '.' :: m) <:+: l := containsSub_sublist_iff.mp h'
  rcases this with ⟨s, t, hst⟩
  have : '.' ∈ l := by
    rw [← hst]; simp
  rcases hall _ this with h1 | h1
  · exact absurd h1 (by decide)
  · exact absurd h1 (by decide)

theorem s3_name_regex_iff {l : List Char} :
    s3_name_regex l = true ↔
      (2 ≤ l.length ∧ (∃ c, l.head? = some c ∧ isLowerNum c = true) ∧
       (∃ c, l.getLast? = some c ∧ isLowerNum c = true) ∧
       ∀ c ∈ l, isLowerNum c = true ∨ c = '-') := by
  unfold s3_name_regex
  simp only [Bool.and_eq_true, decide_eq_true_eq, List.all_eq_true, Bool.or_eq_true,
    decide_eq_true_eq]
  constructor
  · rintro ⟨⟨⟨h2, hh⟩, hl⟩, hall⟩
    refine ⟨h2, ?_, ?_, fun c hc => by simpa using hall c hc⟩
    · cases hd : l.head? with
      | none => rw [hd] at hh; exact absurd hh (by simp [Option.elim])
      | some c => exact ⟨c, rfl, by rw [hd] at hh; simpa [Option.elim] using hh⟩
    · cases hd : l.getLast? with
      | none => rw [hd] at hl; exact absurd hl (by simp [Option.elim])
      | some c => exact ⟨c, rfl, by rw [hd] at hl; simpa [Option.elim] using hl⟩
  · rintro ⟨h2, ⟨ch, hch, hch2⟩, ⟨cl, hcl, hcl2⟩, hall⟩
    refine ⟨⟨⟨h2, ?_⟩, ?_⟩, fun c hc => by simpa using hall c hc⟩
    · rw [hch]; simpa [Option.elim] using hch2
    · rw [hcl]; simpa [Option.elim] using hcl2

/-- The if-cascade of `_validate_s3_bucket_name` as one boolean conjunction. -/
theorem validate_s3_eq (s : String) :
    _validate_s3_bucket_name s =
      ((decide (3 ≤ s.length) && decide (s.length ≤ 63)) && s3_name_regex s.data
        && !(containsStr ".." s || containsStr ".-" s || containsStr "-." s)
        && !("xn--".data.isPrefixOf s.data || "sth-".data.isPrefixOf s.data)) := by
  unfold _validate_s3_bucket_name
  cases h1 : (decide (3 ≤ s.length) && decide (s.length ≤ 63)) <;>
    cases h2 : s3_name_regex s.data <;>
      cases h3 : (containsStr ".." s || containsStr ".-" s || containsStr "-." s) <;>
        cases h4 : ("xn--".data.isPrefixOf s.data || "sth-".data.isPrefixOf s.data) <;>
          simp [h1, h2, h3, h4]

/-- C8: `_validate_s3_bucket_name` returns `true` for exactly those strings of
length 3 to 63 made of lowercase letters, digits and hyphens, that begin and
end with a lowercase letter or digit, and do not start with `"xn--"` or
`"sth-"`; every other string is rejected. -/
theorem C8_validate_s3_bucket_name_iff (s : String) :
    _validate_s3_bucket_name s = true ↔ s3_claim_valid s := by
  have hdotdot : (".." : String).data = ['.', '.'] := rfl
  have hdothyp : (".-" : String).data = ['.', '-'] := rfl
  have hhypdot : ("-." : String).data = ['-', '.'] := rfl
  have hlen : s.length = s.data.length := rfl
  rw [validate_s3_eq]
  simp only [Bool.and_eq_true, Bool.not_eq_true', Bool.or_eq_false_iff,
    decide_eq_true_eq, s3_name_regex_iff, s3_claim_valid]
  constructor
  · rintro ⟨⟨⟨⟨hge, hle⟩, h2len, hhead, hlast, hall⟩, _⟩, hxn, hsth⟩
    refine ⟨hge, hle, hall, hhead, hlast, ?_, ?_⟩
    · intro hp; rw [List.isPrefixOf_iff_prefix.mpr hp] at hxn; exact absurd hxn (by simp)
    · intro hp; rw [List.isPrefixOf_iff_prefix.mpr hp] at hsth; exact absurd hsth (by simp)
  · rintro ⟨hge, hle, hall, hhead, hlast, hxn, hsth⟩
    refine ⟨⟨⟨⟨hge, hle⟩, by omega, hhead, hlast, hall⟩, ⟨?_, ?_⟩, ?_⟩, ?_, ?_⟩
    · show containsSub (".." : String).data s.data = false
      rw [hdotdot]; exact no_dot_sub hall
    · show containsSub (".-" : String).data s.data = false
      rw [hdothyp]; exact no_dot_sub hall
    · show containsSub ("-." : String).data s.data = false
      rw [hhypdot]; exact no_dot_sub' hall
    · rw [Bool.eq_false_iff]; intro hp
      exact hxn (List.isPrefixOf_iff_prefix.mp hp)
    · rw [Bool.eq_false_iff]; intro hp
      exact hsth (List.isPrefixOf_iff_prefix.mp hp)

/-- C9: `_validate_db_identifier` accepts exactly the non-empty strings of
lowercase letters, digits and hyphens with no two consecutive hyphens; in
particular it accepts identifiers beginning or ending with a hyphen and puts
no upper bound on the length. -/
theorem C9_validate_db_identifier_iff (s : String) :
    (_validate_db_identifier s = true ↔ db_id_claim_valid s) ∧
    _validate_db_identifier "-my-db" = true ∧
    _validate_db_identifier "my-db-" = true ∧
    ∀ n : ℕ, _validate_db_identifier (String.mk (List.replicate (n + 1) 'a')) = true := by
  refine ⟨?_, by decide, by decide, ?_⟩
  · unfold _validate_db_identifier db_id_claim_valid
    have hdd : ("--" : String).data = ['-', '-'] := rfl
    simp only [Bool.and_eq_true, Bool.not_eq_true', List.all_eq_true,
      Bool.or_eq_true, decide_eq_true_eq, containsStr, hdd]
    constructor
    · rintro ⟨⟨hne, hall⟩, hns⟩
      refine ⟨?_, fun c hc => by simpa using hall c hc, fun hi => ?_⟩
      · intro hnil
        rw [hnil] at hne; exact absurd hne (by simp [List.isEmpty])
      · rw [containsSub_sublist_iff.mpr hi] at hns
        exact absurd hns (by simp)
    · rintro ⟨hne, hall, hni⟩
      refine ⟨⟨?_, fun c hc => by simpa using hall c hc⟩, ?_⟩
      · cases hd : s.data with
        | nil => exact absurd hd hne
        | cons a t => simp [List.isEmpty]
      · rw [Bool.eq_false_iff]
        intro hcs
        exact hni (containsSub_sublist_iff.mp hcs)
  · intro n
    unfold _validate_db_identifier
    simp only [Bool.and_eq_true, Bool.not_eq_true', List.all_eq_true, containsStr]
    refine ⟨⟨by simp [List.replicate_succ, List.isEmpty], fun c hc => ?_⟩, ?_⟩
    · have hc' : c ∈ List.replicate (n + 1) 'a' := hc
      have : c = 'a' := List.eq_of_mem_replicate hc'
      simp [this, isLowerNum]
    · rw [Bool.eq_false_iff]
      intro hcs
      have hcs' : containsSub ['-', '-'] (List.replicate (n + 1) 'a') = true := hcs
      have hmem : '-' ∈ List.replicate (n + 1) 'a' := containsSub_head_mem hcs'
      exact absurd (List.eq_of_mem_replicate hmem) (by decide)

/-! ### Lemmas about whitespace normalisation and lowercasing -/

/-- `List.lookup` only returns pairs present in the list. -/
theorem lookup_mem {α β : Type} [BEq α] [LawfulBEq α] {l : List (α × β)} {a : α}
    {b : β} (h : l.lookup a = some b) : (a, b) ∈ l := by
  induction l with
  | nil => simp [List.lookup] at h
  | cons p t ih =>
    rcases p with ⟨k, v⟩
    by_cases hb : a = k
    · subst hb
      simp [List.lookup] at h
      simp [h]
    · have hbeq : (a == k) = false := by simpa using hb
      simp only [List.lookup, hbeq] at h
      exact List.mem_cons_of_mem _ (ih h)

/-- A key outside the key set looks up to `none`. -/
theorem lookup_eq_none_of_not_mem {α β : Type} [BEq α] [LawfulBEq α]
    {l : List (α × β)} {a : α} (h : a ∉ l.map Prod.fst) : l.lookup a = none := by
  induction l with
  | nil => rfl
  | cons p t ih =>
    rcases p with ⟨k, v⟩
    have hk : a ≠ k := by
      intro he; exact h (by simp [he])
    have hbeq : (a == k) = false := by simpa using hk
    simp only [List.lookup, hbeq]
    refine ih (fun hm => h ?_)
    simpa using Or.inr (by simpa using hm)

theorem pyLowerChar_idem (c : Char) : pyLowerChar (pyLowerChar c) = pyLowerChar c := by
  unfold pyLowerChar
  cases hl : lowerMap.lookup c with
  | none => simp [hl]
  | some d =>
    have hmem : (c, d) ∈ lowerMap := lookup_mem hl
    have : lowerMap.lookup d = none := by
      have h2 : ∀ p ∈ lowerMap, lowerMap.lookup p.2 = none := by decide
      exact h2 _ hmem
    simp [this]

theorem isPySpace_pyLowerChar (c : Char) : isPySpace (pyLowerChar c) = isPySpace c := by
  unfold pyLowerChar
  cases hl : lowerMap.lookup c with
  | none => simp
  | some d =>
    have hmem : (c, d) ∈ lowerMap := lookup_mem hl
    have h2 : ∀ p ∈ lowerMap, isPySpace p.1 = false ∧ isPySpace p.2 = false := by decide
    rcases h2 _ hmem with ⟨hc, hd⟩
    simp [hc, hd]

theorem pyLowerChar_space : pyLowerChar ' ' = ' ' := by decide

theorem map_pyLowerChar_idem (l : List Char) :
    (l.map pyLowerChar).map pyLowerChar = l.map pyLowerChar := by
  rw [List.map_map]
  exact List.map_congr_left (fun c _ => pyLowerChar_idem c)

theorem splitAux_map (l acc : List Char) :
    splitAux (l.map pyLowerChar) (acc.map pyLowerChar) =
      (splitAux l acc).map (List.map pyLowerChar) := by
  induction l generalizing acc with
  | nil =>
    by_cases h : acc = []
    · subst h; simp [splitAux]
    · have h1 : acc.isEmpty = false := by simpa [List.isEmpty_iff] using h
      have h2 : (acc.map pyLowerChar).isEmpty = false := by
        simpa [List.isEmpty_iff] using h
      simp [splitAux, h1, h2, List.map_reverse]
  | cons c t ih =>
    by_cases hs : isPySpace c = true
    · have hs' : isPySpace (pyLowerChar c) = true := by rw [isPySpace_pyLowerChar]; exact hs
      by_cases h : acc = []
      · subst h
        simp only [List.map_cons, List.map_nil, splitAux, hs, hs', if_true,
          List.isEmpty_nil]
        simpa using ih []
      · have h1 : acc.isEmpty = false := by simpa [List.isEmpty_iff] using h
        have h2 : (acc.map pyLowerChar).isEmpty = false := by
          simpa [List.isEmpty_iff] using h
        simp only [List.map_cons, splitAux, hs, hs', if_true, h1, h2,
          Bool.false_eq_true, if_false, List.map_reverse]
        have := ih []
        simp only [List.map_nil] at this
        rw [this]
    · have hs0 : isPySpace c = false := by simpa using hs
      have hs1 : isPySpace (pyLowerChar c) = false := by
        rw [isPySpace_pyLowerChar]; exact hs0
      simp only [List.map_cons, splitAux, hs0, hs1, Bool.false_eq_true, if_false]
      have := ih (c :: acc)
      simpa using this

theorem pysplit_map (l : List Char) :
    pysplit (l.map pyLowerChar) = (pysplit l).map (List.map pyLowerChar) := by
  have := splitAux_map l []
  simpa [pysplit] using this

theorem joinSpace_map (ts : List (List Char)) :
    joinSpace (ts.map (List.map pyLowerChar)) = (joinSpace ts).map pyLowerChar := by
  induction ts with
  | nil => simp [joinSpace]
  | cons t ts ih =>
    cases ts with
    | nil => simp [joinSpace]
    | cons u us =>
      simp only [List.map_cons, joinSpace, List.map_append]
      rw [← ih]
      simp [pyLowerChar_space]

theorem normWs_map (l : List Char) :
    normWs (l.map pyLowerChar) = (normWs l).map pyLowerChar := by
  rw [normWs, pysplit_map, joinSpace_map, normWs]

/-- Tokens produced by `splitAux` are non-empty and free of whitespace. -/
theorem splitAux_wf (l : List Char) (acc : List Char)
    (hacc : ∀ c ∈ acc, isPySpace c = false) :
    ∀ t ∈ splitAux l acc, t ≠ [] ∧ ∀ c ∈ t, isPySpace c = false := by
  induction l generalizing acc with
  | nil =>
    intro t ht
    by_cases h : acc.isEmpty
    · simp [splitAux, h] at ht
    · simp only [splitAux, h, Bool.false_eq_true, if_false, List.mem_singleton] at ht
      subst ht
      constructor
      · simp only [ne_eq, List.reverse_eq_nil_iff]
        intro hc; rw [hc] at h; simp [List.isEmpty] at h
      · intro c hc; exact hacc c (by simpa using hc)
  | cons c t ih =>
    intro u hu
    by_cases hs : isPySpace c = true
    · by_cases he : acc.isEmpty
      · rw [splitAux, if_pos hs, if_pos he] at hu
        exact ih [] (by simp) u hu
      · rw [splitAux, if_pos hs, if_neg he] at hu
        rcases List.mem_cons.mp hu with hu | hu
        · subst hu
          refine ⟨?_, fun d hd => hacc d (by simpa using hd)⟩
          simp only [ne_eq, List.reverse_eq_nil_iff]
          intro hc; rw [hc] at he; simp [List.isEmpty] at he
        · exact ih [] (by simp) u hu
    · rw [splitAux, if_neg hs] at hu
      refine ih (c :: acc) ?_ u hu
      intro d hd
      rcases List.mem_cons.mp hd with hd | hd
      · subst hd; simpa using hs
      · exact hacc d hd

theorem pysplit_wf (l : List Char) :
    ∀ t ∈ pysplit l, t ≠ [] ∧ ∀ c ∈ t, isPySpace c = false :=
  splitAux_wf l [] (by simp)

/-- Consuming a whitespace-free token extends the accumulator. -/
theorem splitAux_token (t : List Char) (hns : ∀ c ∈ t, isPySpace c = false)
    (l acc : List Char) :
    splitAux (t ++ l) acc = splitAux l (t.reverse ++ acc) := by
  induction t generalizing acc with
  | nil => simp
  | cons c u ih =>
    have hc : isPySpace c = false := hns c (by simp)
    rw [List.cons_append, splitAux, if_neg (by simp [hc])]
    rw [ih (fun d hd => hns d (by simp [hd])) (c :: acc)]
    simp

/-- Splitting the space-joined token list recovers the tokens. -/
theorem pysplit_joinSpace (ts : List (List Char))
    (h : ∀ t ∈ ts, t ≠ [] ∧ ∀ c ∈ t, isPySpace c = false) :
    pysplit (joinSpace ts) = ts := by
  induction ts with
  | nil => simp [pysplit, joinSpace, splitAux]
  | cons t ts ih =>
    rcases h t (by simp) with ⟨hne, hns⟩
    cases ts with
    | nil =>
      show splitAux (joinSpace [t]) [] = [t]
      rw [show joinSpace [t] = t from rfl]
      rw [show (t : List Char) = t ++ ([] : List Char) by simp, splitAux_token t hns [] []]
      have h1 : (t.reverse ++ ([] : List Char)).isEmpty = false := by
        simp [List.isEmpty_iff, hne]
      simp [splitAux, h1, hne]
    | cons u us =>
      show splitAux (joinSpace (t :: u :: us)) [] = t :: u :: us
      rw [show joinSpace (t :: u :: us) = t ++ ' ' :: joinSpace (u :: us) from rfl]
      rw [splitAux_token t hns _ []]
      have hsp : isPySpace ' ' = true := by decide
      have h1 : (t.reverse ++ ([] : List Char)).isEmpty = false := by
        simp [List.isEmpty_iff, hne]
      rw [splitAux, if_pos hsp, if_neg (by simp [h1, hne])]
      rw [List.append_nil, List.reverse_reverse]
      have := ih (fun v hv => h v (by simp [hv]))
      rw [show splitAux (joinSpace (u :: us)) [] = pysplit (joinSpace (u :: us)) from rfl,
        this]

theorem normWs_idem (l : List Char) : normWs (normWs l) = normWs l := by
  rw [normWs, normWs, pysplit_joinSpace _ (pysplit_wf l)]

theorem normWs_map_pyLower (l : List Char) :
    normWs (l.map pyLowerChar) = (normWs l).map pyLowerChar := by
  rw [normWs, pysplit_map, normWs, joinSpace_map]

theorem kwAny_map_idem (l : List Char) :
    kwAny ((l.map pyLowerChar).map pyLowerChar) = kwAny (l.map pyLowerChar) := by
  rw [map_pyLowerChar_idem]

/-- C10 (counterexample): `_clean_extracted_value` is not idempotent.  On the
input `"a\" "` one application yields `"a\""` (the whitespace normalisation
exposes a trailing quote that the initial strip did not see), and a second
application strips that quote, yielding `"a"`. -/
theorem C10_clean_not_idempotent :
    _clean_extracted_value (_clean_extracted_value "a\" ") ≠
      _clean_extracted_value "a\" " := by decide

/-- C10 (amended): `_clean_extracted_value` is idempotent on every string whose
cleaned value is unchanged by stripping quote characters, i.e. neither begins
nor ends with `"` or `'`. -/
theorem C10_clean_idempotent_of_stripped (s : String)
    (h : stripBy isQuote (_clean_extracted_value s).data
        = (_clean_extracted_value s).data) :
    _clean_extracted_value (_clean_extracted_value s) = _clean_extracted_value s := by
  by_cases h0 : s.data.isEmpty
  · have hcs : _clean_extracted_value s = "" := by
      rw [_clean_extracted_value, if_pos h0]
    rw [hcs]
    rfl
  · -- the cleaned value in the non-empty case
    have hw : _clean_extracted_value s =
        if kwAny ((normWs (stripBy isQuote s.data)).map pyLowerChar)
        then ⟨normWs (stripBy isQuote s.data)⟩
        else ⟨(normWs (stripBy isQuote s.data)).map pyLowerChar⟩ := by
      rw [_clean_extracted_value, if_neg (by simp [h0])]
    by_cases hkw : kwAny ((normWs (stripBy isQuote s.data)).map pyLowerChar) = true
    · -- keyword present: value kept un-lowercased
      have hv : _clean_extracted_value s = ⟨normWs (stripBy isQuote s.data)⟩ := by
        rw [hw, if_pos hkw]
      by_cases hnil : normWs (stripBy isQuote s.data) = []
      · rw [hv, hnil]
        rfl
      · have hd : (_clean_extracted_value s).data = normWs (stripBy isQuote s.data) := by
          rw [hv]
        have hne : ¬(_clean_extracted_value s).data.isEmpty = true := by
          rw [hd]; simpa [List.isEmpty_iff] using hnil
        rw [_clean_extracted_value, if_neg hne, h, hd, normWs_idem, if_pos hkw, hv]
    · -- no keyword: value lowercased
      have hkw' : kwAny ((normWs (stripBy isQuote s.data)).map pyLowerChar) = false := by
        simpa using hkw
      have hv : _clean_extracted_value s
          = ⟨(normWs (stripBy isQuote s.data)).map pyLowerChar⟩ := by
        rw [hw, hkw']
        simp
      by_cases hnil : (normWs (stripBy isQuote s.data)).map pyLowerChar = []
      · rw [hv, hnil]
        rfl
      · have hd : (_clean_extracted_value s).data
            = (normWs (stripBy isQuote s.data)).map pyLowerChar := by
          rw [hv]
        have hne : ¬(_clean_extracted_value s).data.isEmpty = true := by
          rw [hd]; simpa [List.isEmpty_iff] using hnil
        have hn2 : normWs ((normWs (stripBy isQuote s.data)).map pyLowerChar)
            = (normWs (stripBy isQuote s.data)).map pyLowerChar := by
          rw [normWs_map_pyLower, normWs_idem]
        rw [_clean_extracted_value, if_neg hne, h, hd, hn2, kwAny_map_idem, hkw']
        simp only [Bool.false_eq_true, if_false]
        rw [map_pyLowerChar_idem, hv]

/-- Witness for the amended C10 at a concrete input. -/
theorem C10_clean_idem_witness :
    stripBy isQuote (_clean_extracted_value "  Hello   WORLD  ").data
        = (_clean_extracted_value "  Hello   WORLD  ").data
      ∧ _clean_extracted_value (_clean_extracted_value "  Hello   WORLD  ")
        = _clean_extracted_value "  Hello   WORLD  " :=
  ⟨by decide, C10_clean_idempotent_of_stripped _ (by decide)⟩

/-! ### Parameter extraction: C6, C7 -/

theorem setParam_lookup (d : Params) (k v q : String) :
    (setParam d k v).lookup q = if q = k then some v else d.lookup q := by
  induction d with
  | nil =>
    by_cases h : q = k
    · simp [setParam, List.lookup, h]
    · have hbeq : (q == k) = false := by simpa using h
      simp [setParam, List.lookup, hbeq, h]
  | cons p t ih =>
    rcases p with ⟨k1, v1⟩
    by_cases hk : k1 = k
    · subst hk
      by_cases hq : q = k1
      · simp [setParam, List.lookup, hq]
      · have hbeq : (q == k1) = false := by simpa using hq
        simp [setParam, List.lookup, hbeq, hq]
    · have hne : ((k1, v1) : String × String).1 = k ↔ False := by simp [hk]
      by_cases hq : q = k1
      · subst hq
        simp [setParam, hk, List.lookup, Ne.symm hk]
      · have hbeq : (q == k1) = false := by simpa using hq
        simp [setParam, hk, List.lookup, hbeq, ih]

theorem extractLoop_eq (search : String → String → Option ReMatch) (ml pname : String)
    (acc : Params) (pats : List String) :
    extractLoop search ml pname acc pats =
      match specFirstValue search ml pname pats with
      | some v => setParam acc pname v
      | none => acc := by
  induction pats with
  | nil => rfl
  | cons p rest ih =>
    simp only [extractLoop, specFirstValue, List.findSome?_cons]
    cases hs : search p ml with
    | none =>
      simp only [Option.none_bind]
      simpa [specFirstValue] using ih
    | some m =>
      simp only [Option.some_bind]
      by_cases hv :
          (!(_clean_extracted_value (_extract_value_from_match m pname)).data.isEmpty) = true
      · simp [hv]
      · have hv' :
            (!(_clean_extracted_value (_extract_value_from_match m pname)).data.isEmpty)
              = false := by simpa using hv
        simp only [hv', Bool.false_eq_true, if_false]
        simpa [specFirstValue] using ih

theorem extract_fold_lookup (search : String → String → Option ReMatch) (ml : String)
    (pps : List (String × List String)) (acc : Params) (q : String)
    (hnd : (pps.map Prod.fst).Nodup) :
    (pps.foldl (fun acc pp => extractLoop search ml pp.1 acc pp.2) acc).lookup q =
      match pps.lookup q with
      | some pats =>
        match specFirstValue search ml q pats with
        | some v => some v
        | none => acc.lookup q
      | none => acc.lookup q := by
  induction pps generalizing acc with
  | nil => rfl
  | cons pp rest ih =>
    rcases pp with ⟨pn, ppats⟩
    rw [List.foldl_cons]
    have hnd' : (rest.map Prod.fst).Nodup := by
      simpa using (List.nodup_cons.mp (by simpa using hnd)).2
    rw [ih _ hnd']
    by_cases hq : q = pn
    · subst hq
      have hnotin : q ∉ rest.map Prod.fst := (List.nodup_cons.mp (by simpa using hnd)).1
      have hrest : rest.lookup q = none := lookup_eq_none_of_not_mem hnotin
      rw [hrest]
      have hlk : ((q, ppats) :: rest).lookup q = some ppats := by
        simp [List.lookup]
      rw [hlk]
      rw [extractLoop_eq]
      cases hv : specFirstValue search ml q ppats with
      | some v => simp [hv, setParam_lookup]
      | none => simp [hv]
    · have hbeq : (q == pn) = false := by simpa using hq
      have hlk : ((pn, ppats) :: rest).lookup q = rest.lookup q := by
        simp [List.lookup, hbeq]
      rw [hlk]
      have hacc : (extractLoop search ml pn acc ppats).lookup q = acc.lookup q := by
        rw [extractLoop_eq]
        cases hv : specFirstValue search ml pn ppats with
        | some v => simp [hv, setParam_lookup, hq]
        | none => simp [hv]
      cases hr : rest.lookup q with
      | none => simp [hr, hacc]
      | some pats =>
        cases hv : specFirstValue search ml q pats with
        | some v => simp [hr, hv]
        | none => simp [hr, hv, hacc]

/-- C6: `extract_parameters_regex` returns the empty dictionary for resource
types outside the pattern table; otherwise each parameter of the resource type
is bound to the cleaned value of the first pattern (in table order) that
matches the lowercased message and cleans to a non-empty value, and is omitted
when no pattern does. -/
theorem C6_extract_parameters_regex (search : String → String → Option ReMatch)
    (message rt : String) :
    (parameter_patterns.lookup rt = none →
      extract_parameters_regex search message rt = []) ∧
    (∀ pats, parameter_patterns.lookup rt = some pats →
      ∀ pname, (extract_parameters_regex search message rt).lookup pname
        = (pats.lookup pname).bind (specFirstValue search (pyLower message) pname)) := by
  constructor
  · intro h
    unfold extract_parameters_regex
    rw [h]
  · intro pats hp pname
    unfold extract_parameters_regex
    rw [hp]
    have hnd : (pats.map Prod.fst).Nodup := by
      have hall : ∀ x ∈ parameter_patterns, (x.2.map Prod.fst).Nodup := by decide
      exact hall _ (lookup_mem hp)
    rw [extract_fold_lookup _ _ _ _ _ hnd]
    cases hl : pats.lookup pname with
    | none => simp [hl]
    | some ps =>
      simp only [hl, Option.some_bind]
      cases hv : specFirstValue search (pyLower message) pname ps with
      | some v => simp [hv]
      | none => simp [hv, List.lookup]

/-- Witness for C6 at a concrete matcher, message and resource types. -/
theorem C6_extract_witness :
    extract_parameters_regex (fun _ _ => none) "m" "iam_user" = [] ∧
    (extract_parameters_regex (fun _ _ => none) "m" "s3").lookup "bucket_name" = none := by
  constructor
  · exact (C6_extract_parameters_regex (fun _ _ => none) "m" "iam_user").1 rfl
  · have h := (C6_extract_parameters_regex (fun _ _ => none) "m" "s3").2 _ rfl "bucket_name"
    rw [h]
    rfl

theorem str_isEmpty_eq (v : String) : v.data.isEmpty = (v == "") := by
  rcases v with ⟨l⟩
  cases l with
  | nil => rfl
  | cons c t =>
    have hne : (String.mk (c :: t) == "") = false := by
      rw [beq_eq_false_iff_ne]
      intro h
      have := congrArg String.data h
      simp at this
    simp [List.isEmpty, hne]

/-- C7: `get_missing_parameters` returns exactly the required parameters of
the resource type that are absent or bound to a falsy value, in required-list
order, and the empty list for any other resource type. -/
theorem C7_get_missing_parameters (d : Params) (rt : String) :
    get_missing_parameters d "ec2"
        = ["ec2_name", "ec2_ami", "ec2_type", "vol1_volume_type",
           "ec2_availabilityzone"].filter (missingB d)
  ∧ get_missing_parameters d "s3" = ["bucket_name"].filter (missingB d)
  ∧ get_missing_parameters d "rds"
        = ["db_identifier", "db_engine", "db_engine_version", "db_instance_class",
           "allocated_storage", "db_username", "db_password"].filter (missingB d)
  ∧ get_missing_parameters d "dynamodb"
        = ["table_name", "hash_key_name", "hash_key_type"].filter (missingB d)
  ∧ (rt ≠ "ec2" → rt ≠ "s3" → rt ≠ "rds" → rt ≠ "dynamodb" →
      get_missing_parameters d rt = []) := by
  have hcongr : ∀ l : List String,
      l.filter (fun param =>
        match d.lookup param with
        | none => true
        | some v => v.data.isEmpty) = l.filter (missingB d) := by
    intro l
    refine List.filter_congr (fun p _ => ?_)
    unfold missingB
    cases d.lookup p with
    | none => rfl
    | some v => exact str_isEmpty_eq v
  refine ⟨?_, ?_, ?_, ?_, ?_⟩
  · rw [show get_missing_parameters d "ec2"
        = (["ec2_name", "ec2_ami", "ec2_type", "vol1_volume_type",
            "ec2_availabilityzone"] : List String).filter (fun param =>
          match d.lookup param with
          | none => true
          | some v => v.data.isEmpty) from rfl]
    exact hcongr _
  · rw [show get_missing_parameters d "s3"
        = (["bucket_name"] : List String).filter (fun param =>
          match d.lookup param with
          | none => true
          | some v => v.data.isEmpty) from rfl]
    exact hcongr _
  · rw [show get_missing_parameters d "rds"
        = (["db_identifier", "db_engine", "db_engine_version", "db_instance_class",
            "allocated_storage", "db_username", "db_password"] : List String).filter
          (fun param =>
            match d.lookup param with
            | none => true
            | some v => v.data.isEmpty) from rfl]
    exact hcongr _
  · rw [show get_missing_parameters d "dynamodb"
        = (["table_name", "hash_key_name", "hash_key_type"] : List String).filter
          (fun param =>
            match d.lookup param with
            | none => true
            | some v => v.data.isEmpty) from rfl]
    exact hcongr _
  · intro h1 h2 h3 h4
    have e1 : (rt == "ec2") = false := by simpa using h1
    have e2 : (rt == "s3") = false := by simpa using h2
    have e3 : (rt == "rds") = false := by simpa using h3
    have e4 : (rt == "dynamodb") = false := by simpa using h4
    unfold get_missing_parameters
    have hnone : parameter_patterns.lookup rt = none := by
      simp [parameter_patterns, List.lookup, e1, e2, e3, e4]
    rw [hnone]
    rfl

/-- Witness for C7 at a concrete dictionary and resource type. -/
theorem C7_get_missing_witness :
    get_missing_parameters [("bucket_name", "b1")] "iam_user" = [] ∧
    get_missing_parameters [("table_name", "t"), ("hash_key_name", "")] "dynamodb"
      = ["hash_key_name", "hash_key_type"] := by
  constructor
  · exact (C7_get_missing_parameters [("bucket_name", "b1")] "iam_user").2.2.2.2
      (by decide) (by decide) (by decide) (by decide)
  · have h := (C7_get_missing_parameters
      [("table_name", "t"), ("hash_key_name", "")] "dynamodb").2.2.2.1
    rw [h]
    rfl

/-! ### Intent classification: C5 -/

/-- C5: if any regex pattern in the intent table matches the lowercased
message, the hybrid classifier returns the first matching intent (table
order) with confidence exactly 0.8 and an empty parameter dictionary, and its
result does not depend on the LLM outcome; the LLM-combination path is taken
exactly when no regex pattern matches. -/
theorem C5_classify_intent_hybrid (searchB : String → String → Bool)
    (ai : Option String × ℚ × Params) (message : String) :
    (intentAnyMatch searchB message = true →
      classify_intent_hybrid searchB ai message
          = (specFirstIntent searchB message, (0.8 : ℚ), ([] : Params)) ∧
        ∀ ai2, classify_intent_hybrid searchB ai2 message
          = classify_intent_hybrid searchB ai message) ∧
    (intentAnyMatch searchB message = false →
      classify_intent_hybrid searchB ai message = aiCombine ai) := by
  constructor
  · intro hmatch
    obtain ⟨ip, hf⟩ : ∃ ip, intent_patterns.find?
        (fun ip => ip.2.any (fun p => searchB p (pyLower message))) = some ip := by
      cases hf : intent_patterns.find?
          (fun ip => ip.2.any (fun p => searchB p (pyLower message))) with
      | some ip => exact ⟨ip, rfl⟩
      | none =>
        rw [List.find?_eq_none] at hf
        rw [intentAnyMatch, List.any_eq_true] at hmatch
        obtain ⟨x, hxmem, hx⟩ := hmatch
        exact absurd hx (by simpa using hf x hxmem)
    have hreg : classify_intent_regex searchB message = (some ip.1, (0.8 : ℚ)) := by
      unfold classify_intent_regex
      rw [hf]
    have hspec : specFirstIntent searchB message = some ip.1 := by
      unfold specFirstIntent
      rw [hf]
      rfl
    have hres : ∀ ai', classify_intent_hybrid searchB ai' message
        = (some ip.1, (0.8 : ℚ), ([] : Params)) := by
      intro ai'
      unfold classify_intent_hybrid
      rw [hreg]
      norm_num
    refine ⟨by rw [hres ai, hspec], fun ai2 => by rw [hres ai2, hres ai]⟩
  · intro hnone
    have hf : intent_patterns.find?
        (fun ip => ip.2.any (fun p => searchB p (pyLower message))) = none := by
      rw [List.find?_eq_none]
      intro x hx
      rw [intentAnyMatch, List.any_eq_false] at hnone
      simpa using hnone x hx
    have hreg : classify_intent_regex searchB message = (none, 0) := by
      unfold classify_intent_regex
      rw [hf]
    unfold classify_intent_hybrid aiCombine
    rw [hreg]
    have h08 : ¬((0.8 : ℚ) ≤ ((none, (0 : ℚ)) : Option String × ℚ).2) := by norm_num
    rw [if_neg h08]
    simp only [optTruthy, Bool.false_and, Bool.false_eq_true, if_false]

/-- Witness for C5: an always-matching matcher yields the first table intent
at confidence 0.8 with no parameters; a never-matching matcher hands over to
the LLM combination. -/
theorem C5_classify_witness :
    classify_intent_hybrid (fun _ _ => true) (none, 0, []) "x"
        = (some "create_ec2", (0.8 : ℚ), ([] : Params)) ∧
    classify_intent_hybrid (fun _ _ => false) (some "help", (0.9 : ℚ), []) "x"
        = (some "help", (0.9 : ℚ), ([] : Params)) := by
  constructor
  · have h := ((C5_classify_intent_hybrid (fun _ _ => true)
      (none, 0, ([] : Params)) "x").1 (by decide)).1
    rw [h]
    rfl
  · have h := (C5_classify_intent_hybrid (fun _ _ => false)
      (some "help", (0.9 : ℚ), ([] : Params)) "x").2 (by decide)
    rw [h]
    have hgt : (((some "help", (0.9 : ℚ), ([] : Params)) :
        Option String × ℚ × Params).2.1) > 0 := by norm_num
    unfold aiCombine
    rw [if_pos hgt]

/-! ### Terraform execution: C2 -/

theorem extractOutputsList_spec (fields outs : List (String × JsonVal))
    (h : extractOutputsList fields = some outs) :
    outs.length = fields.length ∧
      ∀ i, i < fields.length →
        outs.get? i = (fields.get? i).bind
          (fun kv => (jsonValueField kv.2).map (fun v => (kv.1, v))) := by
  induction fields generalizing outs with
  | nil =>
    simp only [extractOutputsList, Option.some_inj] at h
    subst h
    exact ⟨rfl, fun i hi => absurd hi (by simp)⟩
  | cons kv rest ih =>
    simp only [extractOutputsList] at h
    cases hv : jsonValueField kv.2 with
    | none => rw [hv] at h; exact absurd h (by simp)
    | some v =>
      rw [hv] at h
      cases hr : extractOutputsList rest with
      | none => rw [hr] at h; exact absurd h (by simp)
      | some out =>
        rw [hr] at h
        simp only [Option.some_inj] at h
        subst h
        obtain ⟨hlen, hget⟩ := ih out hr
        refine ⟨by simp [hlen], fun i hi => ?_⟩
        cases i with
        | zero => simp [hv]
        | succ n =>
          simp only [List.get?_cons_succ]
          exact hget n (by simpa using hi)

/-- C2 (counterexample): with both Terraform commands succeeding and
`terraform output -json` producing the non-empty, valid JSON `{"a": 1}`,
`_run_terraform_apply` still raises (the entry `1` is not an object with a
`'value'` field), so the claimed "if and only if" fails. -/
theorem C2_run_terraform_counterexample :
    exceptIsError (_run_terraform_apply loads0 env0) = true ∧
    env0.initCode = 0 ∧ env0.applyCode = 0 ∧
    exceptIsError env0.outputResult = false ∧
    pyBlank "\x7b\"a\": 1\x7d" = false ∧
    (loads0 "\x7b\"a\": 1\x7d").isSome = true :=
  ⟨rfl, rfl, rfl, rfl, by decide, rfl⟩

/-- C2 (amended): `_run_terraform_apply` raises exactly when `terraform init`
or `terraform apply` exits non-zero, `terraform output -json` fails, its
output is empty, is not valid JSON, or parses to anything other than a JSON
object whose every entry is an object with a `'value'` key; otherwise it
returns the dictionary sending each key of the parsed output to that entry's
`'value'` field. -/
theorem C2_run_terraform_apply (loads : String → Option JsonVal) (env : TfEnv) :
    (exceptIsError (_run_terraform_apply loads env) = true ↔
      (env.initCode ≠ 0 ∨ env.applyCode ≠ 0 ∨
        (∃ e, env.outputResult = Except.error e) ∨
        (∃ r, env.outputResult = Except.ok r ∧
          (pyBlank r.stdout = true ∨ loads r.stdout = none ∨
            (∃ j, loads r.stdout = some j ∧ extractOutputs j = none))))) ∧
    (∀ r j outs, env.initCode = 0 → env.applyCode = 0 →
      env.outputResult = Except.ok r → pyBlank r.stdout = false →
      loads r.stdout = some j → extractOutputs j = some outs →
      _run_terraform_apply loads env = Except.ok outs) ∧
    (∀ fields outs, extractOutputs (JsonVal.obj fields) = some outs →
      outs.length = fields.length ∧
        ∀ i, i < fields.length →
          outs.get? i = (fields.get? i).bind
            (fun kv => (jsonValueField kv.2).map (fun v => (kv.1, v)))) := by
  refine ⟨?_, ?_, ?_⟩
  · by_cases h1 : env.initCode = 0
    · by_cases h2 : env.applyCode = 0
      · cases henv : env.outputResult with
        | error e =>
          have hrun : _run_terraform_apply loads env
              = Except.error "terraform output -json failed" := by
            unfold _run_terraform_apply
            rw [if_neg (by simp [h1]), if_neg (by simp [h2]), henv]
          rw [hrun]
          simp only [exceptIsError, true_iff]
          exact Or.inr (Or.inr (Or.inl ⟨e, rfl⟩))
        | ok r =>
          by_cases hb : pyBlank r.stdout = true
          · have hrun : _run_terraform_apply loads env
                = Except.error "Terraform output is empty" := by
              unfold _run_terraform_apply
              rw [if_neg (by simp [h1]), if_neg (by simp [h2]), henv]
              simp [hb]
            rw [hrun]
            simp only [exceptIsError, true_iff]
            exact Or.inr (Or.inr (Or.inr ⟨r, rfl, Or.inl hb⟩))
          · have hb' : pyBlank r.stdout = false := by simpa using hb
            cases hld : loads r.stdout with
            | none =>
              have hrun : _run_terraform_apply loads env
                  = Except.error "Failed to parse Terraform JSON output" := by
                unfold _run_terraform_apply
                rw [if_neg (by simp [h1]), if_neg (by simp [h2]), henv]
                simp [hb', hld]
              rw [hrun]
              simp only [exceptIsError, true_iff]
              exact Or.inr (Or.inr (Or.inr ⟨r, rfl, Or.inr (Or.inl hld)⟩))
            | some j =>
              cases hex : extractOutputs j with
              | none =>
                have hrun : _run_terraform_apply loads env
                    = Except.error "Error processing Terraform output" := by
                  unfold _run_terraform_apply
                  rw [if_neg (by simp [h1]), if_neg (by simp [h2]), henv]
                  simp [hb', hld, hex]
                rw [hrun]
                simp only [exceptIsError, true_iff]
                exact Or.inr (Or.inr (Or.inr ⟨r, rfl, Or.inr (Or.inr ⟨j, hld, hex⟩)⟩))
              | some outs =>
                have hrun : _run_terraform_apply loads env = Except.ok outs := by
                  unfold _run_terraform_apply
                  rw [if_neg (by simp [h1]), if_neg (by simp [h2]), henv]
                  simp [hb', hld, hex]
                rw [hrun]
                simp only [exceptIsError, Bool.false_eq_true, false_iff]
                rintro (h | h | ⟨e, he⟩ | ⟨r', hr', hcase⟩)
                · exact h h1
                · exact h h2
                · exact absurd he (by simp)
                · have : r = r' := by injection hr'
                  subst this
                  rcases hcase with hc | hc | ⟨j', hj', hex'⟩
                  · rw [hc] at hb'; exact absurd hb' (by simp)
                  · rw [hld] at hc; exact absurd hc (by simp)
                  · rw [hld] at hj'
                    have : j = j' := by injection hj'
                    subst this
                    rw [hex] at hex'
                    exact absurd hex' (by simp)
      · have hrun : _run_terraform_apply loads env
            = Except.error "Terraform apply failed" := by
          unfold _run_terraform_apply
          rw [if_neg (by simp [h1]), if_pos h2]
        rw [hrun]
        simp only [exceptIsError, true_iff]
        exact Or.inr (Or.inl h2)
    · have hrun : _run_terraform_apply loads env
          = Except.error "Terraform init failed" := by
        unfold _run_terraform_apply
        rw [if_pos h1]
      rw [hrun]
      simp only [exceptIsError, true_iff]
      exact Or.inl h1
  · intro r j outs h1 h2 henv hb hld hex
    unfold _run_terraform_apply
    rw [if_neg (by simp [h1]), if_neg (by simp [h2]), henv]
    simp [hb, hld, hex]
  · intro fields outs h
    exact extractOutputsList_spec fields outs h

/-- Witness for the amended C2 at a concrete environment and parser. -/
theorem C2_run_terraform_witness :
    _run_terraform_apply
        (fun s => if s = "o"
          then some (JsonVal.obj [("ip", JsonVal.obj [("value", JsonVal.str "1.2.3.4")])])
          else none)
        ⟨0, 0, Except.ok ⟨"o", ""⟩⟩
      = Except.ok [("ip", JsonVal.str "1.2.3.4")] :=
  (C2_run_terraform_apply _ _).2.1 ⟨"o", ""⟩
    (JsonVal.obj [("ip", JsonVal.obj [("value", JsonVal.str "1.2.3.4")])])
    [("ip", JsonVal.str "1.2.3.4")] rfl rfl rfl (by decide) rfl rfl

/-! ### The create-resource flow: supporting lemmas -/

theorem skip_props (ps : List String) (params : Params) :
    ∀ n i, ps.length - i ≤ n →
      i ≤ skipProvided ps params i ∧
      (skipProvided ps params i < ps.length →
        hasParam params (ps.getD (skipProvided ps params i) "") = false) ∧
      (∀ k, i ≤ k → k < skipProvided ps params i →
        hasParam params (ps.getD k "") = true) ∧
      (i ≤ ps.length → skipProvided ps params i ≤ ps.length) := by
  intro n
  induction n with
  | zero =>
    intro i hn
    have hge : ps.length ≤ i := by omega
    have hs : skipProvided ps params i = i := by
      rw [skipProvided]
      rw [dif_neg (by omega)]
    rw [hs]
    exact ⟨le_refl i, fun h => absurd h (by omega), fun k h1 h2 => absurd h1 (by omega),
      fun h => h⟩
  | succ n ih =>
    intro i hn
    by_cases hlt : i < ps.length
    · by_cases hmem : hasParam params (ps.get ⟨i, hlt⟩) = true
      · have hs : skipProvided ps params i = skipProvided ps params (i + 1) := by
          rw [skipProvided]
          rw [dif_pos hlt, if_pos hmem]
        obtain ⟨h1, h2, h3, h4⟩ := ih (i + 1) (by omega)
        rw [hs]
        refine ⟨by omega, h2, fun k hk1 hk2 => ?_, fun _ => h4 (by omega)⟩
        by_cases hk : k = i
        · subst hk
          rw [List.getD_eq_getElem?_getD, List.getElem?_eq_getElem hlt]
          simpa [List.get_eq_getElem] using hmem
        · exact h3 k (by omega) hk2
      · have hs : skipProvided ps params i = i := by
          rw [skipProvided]
          rw [dif_pos hlt, if_neg hmem]
        rw [hs]
        refine ⟨le_refl i, fun _ => ?_, fun k h1 h2 => absurd h1 (by omega), fun h => by omega⟩
        rw [List.getD_eq_getElem?_getD, List.getElem?_eq_getElem hlt]
        simpa [List.get_eq_getElem] using hmem
    · have hs : skipProvided ps params i = i := by
        rw [skipProvided]
        rw [dif_neg hlt]
      rw [hs]
      exact ⟨le_refl i, fun h => absurd h hlt, fun k h1 h2 => absurd h1 (by omega),
        fun h => h⟩

theorem skip_ge (ps : List String) (params : Params) (i : Nat) :
    i ≤ skipProvided ps params i :=
  (skip_props ps params (ps.length - i) i (le_refl _)).1

theorem skip_le (ps : List String) (params : Params) (i : Nat) (h : i ≤ ps.length) :
    skipProvided ps params i ≤ ps.length :=
  (skip_props ps params (ps.length - i) i (le_refl _)).2.2.2 h

theorem skip_not_mem (ps : List String) (params : Params) (i : Nat)
    (h : skipProvided ps params i < ps.length) :
    hasParam params (ps.getD (skipProvided ps params i) "") = false :=
  (skip_props ps params (ps.length - i) i (le_refl _)).2.1 h

theorem skip_mem (ps : List String) (params : Params) (i k : Nat)
    (h1 : i ≤ k) (h2 : k < skipProvided ps params i) :
    hasParam params (ps.getD k "") = true :=
  (skip_props ps params (ps.length - i) i (le_refl _)).2.2.1 k h1 h2

theorem skip_all_present (ps : List String) (params : Params) (i : Nat)
    (hle : i ≤ ps.length) (hall : ∀ p ∈ ps, hasParam params p = true) :
    skipProvided ps params i = ps.length := by
  have h1 := skip_le ps params i hle
  by_contra hne
  have hlt : skipProvided ps params i < ps.length := by omega
  have := skip_not_mem ps params i hlt
  have hmem : ps.getD (skipProvided ps params i) "" ∈ ps := by
    rw [List.getD_eq_getElem?_getD, List.getElem?_eq_getElem hlt]
    simp [List.getElem_mem]
  rw [hall _ hmem] at this
  exact absurd this (by simp)

theorem skip_at_len (ps : List String) (params : Params) :
    skipProvided ps params ps.length = ps.length := by
  rw [skipProvided]
  rw [dif_neg (by omega)]

/-- First call to `_execute_create_resource`: show the preview and arm the
confirmation gate, nothing else. -/
theorem execute_preview (env : FlowEnv) (fl : Flow) (h : fl.preview_shown = false) :
    _execute_create_resource env fl
      = ({ fl with preview_shown := true, awaiting_confirmation := true },
         [Effect.preview]) := by
  unfold _execute_create_resource _show_resource_preview
  rw [h]
  rfl

theorem execute_no_create (env : FlowEnv) (fl : Flow) (h : fl.preview_shown = false) :
    hasCreate (_execute_create_resource env fl).2 = false := by
  rw [execute_preview env fl h]
  rfl

theorem execute_effects (env : FlowEnv) (fl : Flow) (h : fl.preview_shown = true) :
    (_execute_create_resource env fl).2 = [Effect.create fl.params, Effect.note] := by
  unfold _execute_create_resource
  rw [h]
  simp only [Bool.not_true, Bool.false_eq_true, if_false]
  cases env.createResult fl.params <;> rfl

theorem execute_ok (env : FlowEnv) (fl : Flow) (outs : Params)
    (h : fl.preview_shown = true) (hc : env.createResult fl.params = Except.ok outs) :
    _execute_create_resource env fl
      = ({ fl with active := false }, [Effect.create fl.params, Effect.note]) := by
  unfold _execute_create_resource
  rw [h]
  simp only [Bool.not_true, Bool.false_eq_true, if_false]
  rw [hc]

theorem execute_fail (env : FlowEnv) (fl : Flow) (e : String)
    (h : fl.preview_shown = true) (hc : env.createResult fl.params = Except.error e) :
    _execute_create_resource env fl
      = ({ fl with error_occurred := true }, [Effect.create fl.params, Effect.note]) := by
  unfold _execute_create_resource
  rw [h]
  simp only [Bool.not_true, Bool.false_eq_true, if_false]
  rw [hc]

/-- No word deactivating the flow also confirms or enters modification. -/
theorem cancel_not_yes {x : String} (h : cancelWords.contains x = true) :
    (["yes", "y", "confirm", "proceed"].contains x) = false ∧
    (["modify", "change", "edit"].contains x) = false := by
  have hx : x ∈ ["cancel", "abort", "no", "n"] := by simpa [cancelWords] using h
  fin_cases hx <;> exact ⟨by decide, by decide⟩

/-- The confirmation stage calls into Terraform only on an affirmative reply
with the preview already shown. -/
theorem confirm_create (env : FlowEnv) (st : Flow) (msg : String)
    (hc : hasCreate (confirmStage env st msg).2 = true) :
    yesWords.contains (pyLower msg) = true ∧ st.preview_shown = true := by
  unfold confirmStage at hc
  by_cases hy : (["yes", "y", "confirm", "proceed"].contains (pyLower msg)) = true
  · rw [if_pos hy] at hc
    refine ⟨hy, ?_⟩
    by_cases hp : st.preview_shown = true
    · exact hp
    · have hp' : ({ st with awaiting_confirmation := false, confirmed := true } : Flow).preview_shown = false := by
        simpa using hp
      rw [execute_no_create env _ hp'] at hc
      exact absurd hc (by simp)
  · rw [if_neg hy] at hc
    exfalso
    split_ifs at hc <;> simp [hasCreate, isCreateEff] at hc

theorem confirm_cancel (env : FlowEnv) (st : Flow) (msg : String)
    (hcw : cancelWords.contains (pyLower msg) = true) :
    confirmStage env st msg = ({ st with active := false }, [Effect.note]) := by
  obtain ⟨hy, hm⟩ := cancel_not_yes hcw
  unfold confirmStage
  rw [if_neg (by simpa using hy), if_neg (by simpa using hm), if_pos (by exact hcw)]

theorem confirm_inv (env : FlowEnv) (st : Flow) (msg : String) (hInv : FlowInv st) :
    FlowInv (confirmStage env st msg).1 := by
  unfold confirmStage
  split_ifs with h1 h2 h3
  · -- affirmative: execute
    by_cases hp : st.preview_shown = true
    · cases hcr : env.createResult st.params with
      | ok outs =>
        rw [execute_ok env _ outs (by simpa using hp) (by simpa using hcr)]
        intro hact _
        simp at hact
      | error e =>
        rw [execute_fail env _ e (by simpa using hp) (by simpa using hcr)]
        intro _ _
        right; right; right; rfl
    · rw [execute_preview env _ (by simpa using hp)]
      intro _ _
      left; rfl
  · intro _ _; right; left; rfl
  · intro hact _; simp at hact
  · exact hInv

theorem modifyDecision_no_create (st : Flow) (msg : String) :
    hasCreate (modifyDecisionStage st msg).2 = false := by
  unfold modifyDecisionStage _show_resource_preview
  split_ifs <;> try rfl
  cases _find_parameter_by_input msg st.resource_type st.params <;> rfl

theorem modifyDecision_inv (st : Flow) (msg : String) (hInv : FlowInv st) :
    FlowInv (modifyDecisionStage st msg).1 := by
  unfold modifyDecisionStage _show_resource_preview
  split_ifs
  · exact hInv
  · intro _ _; left; rfl
  · cases _find_parameter_by_input msg st.resource_type st.params with
    | some p => intro _ _; right; right; left; rfl
    | none => exact hInv

theorem newValue_no_create (st : Flow) (msg : String) :
    hasCreate (newValueStage st msg).2 = false := rfl

theorem newValue_inv (st : Flow) (msg : String) : FlowInv (newValueStage st msg).1 := by
  intro _ _; right; left; rfl

theorem errorStage_no_create (env : FlowEnv) (st : Flow) (msg : String)
    (h : st.awaiting_param_modification_decision = false) :
    hasCreate (errorStage env st msg).2 = false := by
  unfold errorStage newValueStage
  rw [h]
  simp only [Bool.false_eq_true, if_false]
  split_ifs <;> try rfl
  cases ((PARAMETER_ALIASES.lookup st.resource_type).getD []).lookup
      (pyLower (pyStrip msg)) with
  | some param =>
    by_cases hp : hasParam st.params param = true <;>
      simp [hp, hasCreate, isCreateEff]
  | none => rfl

theorem errorStage_inv (env : FlowEnv) (st : Flow) (msg : String)
    (h : st.awaiting_param_modification_decision = false)
    (herr : st.error_occurred = true) :
    FlowInv (errorStage env st msg).1 := by
  unfold errorStage newValueStage
  rw [h]
  simp only [Bool.false_eq_true, if_false]
  split_ifs with h1 h2 h3 h4
  · -- awaiting_param_to_modify branch
    cases ((PARAMETER_ALIASES.lookup st.resource_type).getD []).lookup
        (pyLower (pyStrip msg)) with
    | some param =>
      by_cases hp : hasParam st.params param = true <;>
        · simp only [hp, if_true, Bool.false_eq_true, if_false]
          intro _ _
          right; right; right; simpa using herr
    | none =>
      intro _ _
      right; right; right; simpa using herr
  · intro _ _; right; left; rfl
  · intro _ _; right; left; rfl
  · intro hact _; simp at hact
  · intro _ _; right; right; right; simpa using herr

theorem askNext_ask (env : FlowEnv) (st : Flow) (ps : List String) (j : Nat)
    (h : j < ps.length) :
    (askNext env st ps j).2 = [Effect.ask (ps.getD j "")] ∧
    (askNext env st ps j).1.current_param_index = some (j + 1) := by
  have hg : ps.get ⟨j, h⟩ = ps.getD j "" := by
    rw [List.getD_eq_getElem?_getD, List.getElem?_eq_getElem h]
    rfl
  unfold askNext
  rw [dif_pos h]
  dsimp only
  split_ifs <;> simp [hg, List.getElem?_eq_getElem h]

theorem askNext_no_create (env : FlowEnv) (st : Flow) (ps : List String) (j : Nat)
    (hprev : st.preview_shown = false) :
    hasCreate (askNext env st ps j).2 = false := by
  unfold askNext
  by_cases h : j < ps.length
  · rw [dif_pos h]
    dsimp only
    split_ifs <;> rfl
  · rw [dif_neg h]
    exact execute_no_create env st hprev

theorem askNext_inv (env : FlowEnv) (st : Flow) (ps : List String) (j : Nat)
    (hprev : st.preview_shown = false) :
    FlowInv (askNext env st ps j).1 := by
  unfold askNext
  by_cases h : j < ps.length
  · rw [dif_pos h]
    dsimp only
    split_ifs <;> (intro _ hpre; simp [hprev] at hpre)
  · rw [dif_neg h]
    rw [execute_preview env st hprev]
    intro _ _
    left; rfl

theorem storeAndAsk_no_create (env : FlowEnv) (st : Flow) (msg prev : String)
    (ps : List String) (j : Nat) (hprev : st.preview_shown = false) :
    hasCreate (storeAndAsk env st msg prev ps j).2 = false := by
  unfold storeAndAsk
  split_ifs <;> try rfl
  exact askNext_no_create env _ ps j (by simpa using hprev)

theorem storeAndAsk_inv (env : FlowEnv) (st : Flow) (msg prev : String)
    (ps : List String) (j : Nat) (hprev : st.preview_shown = false) :
    FlowInv (storeAndAsk env st msg prev ps j).1 := by
  unfold storeAndAsk
  split_ifs with v1 v2 v3 v4
  · intro _ hpre; simp [hprev] at hpre
  · intro _ hpre; simp [hprev] at hpre
  · intro _ hpre; simp [hprev] at hpre
  · intro _ hpre; simp [hprev] at hpre
  · exact askNext_inv env _ ps j (by simpa using hprev)

theorem collect_no_create (env : FlowEnv) (st : Flow) (msg : String) (ps : List String)
    (hprev : st.preview_shown = false) :
    hasCreate (collectStage env st msg ps).2 = false := by
  unfold collectStage
  by_cases hmsg : msg = ""
  · rw [if_neg (by simp [hmsg])]
    exact askNext_no_create env st ps _ hprev
  · rw [if_pos hmsg]
    cases resolveParamName st ps (st.current_param_index.getD 0) with
    | none => rfl
    | some prev =>
      dsimp only
      split_ifs with hrds
      · cases pyParseInt (pyStrip msg) with
        | none => rfl
        | some n =>
          dsimp only
          split_ifs with hsel
          · exact storeAndAsk_no_create env _ _ _ ps _ (by simpa using hprev)
          · rfl
      · exact storeAndAsk_no_create env st msg prev ps _ hprev

theorem collect_inv (env : FlowEnv) (st : Flow) (msg : String) (ps : List String)
    (hprev : st.preview_shown = false) :
    FlowInv (collectStage env st msg ps).1 := by
  unfold collectStage
  by_cases hmsg : msg = ""
  · rw [if_neg (by simp [hmsg])]
    exact askNext_inv env st ps _ hprev
  · rw [if_pos hmsg]
    cases resolveParamName st ps (st.current_param_index.getD 0) with
    | none =>
      intro _ hpre
      simp [hprev] at hpre
    | some prev =>
      dsimp only
      split_ifs with hrds
      · cases pyParseInt (pyStrip msg) with
        | none =>
          intro _ hpre
          simp [hprev] at hpre
        | some n =>
          dsimp only
          split_ifs with hsel
          · exact storeAndAsk_inv env _ _ _ ps _ (by simpa using hprev)
          · intro _ hpre
            simp [hprev] at hpre
      · exact storeAndAsk_inv env st msg prev ps _ hprev

theorem skipState_fields (st : Flow) :
    (skipState st).active = st.active ∧ (skipState st).resource_type = st.resource_type ∧
    (skipState st).params = st.params ∧
    (skipState st).awaiting_confirmation = st.awaiting_confirmation ∧
    (skipState st).preview_shown = st.preview_shown ∧
    (skipState st).awaiting_param_modification_decision
      = st.awaiting_param_modification_decision ∧
    (skipState st).awaiting_new_param_value = st.awaiting_new_param_value ∧
    (skipState st).awaiting_param_to_modify = st.awaiting_param_to_modify ∧
    (skipState st).error_occurred = st.error_occurred := by
  unfold skipState
  cases st.current_param_index <;> simp

theorem skipState_flowInv (st : Flow) (hInv : FlowInv st) : FlowInv (skipState st) := by
  obtain ⟨f1, _, _, f4, f5, f6, f7, _, f9⟩ := skipState_fields st
  intro ha hp
  rw [f4, f6, f7, f9]
  exact hInv (by rw [← f1]; exact ha) (by rw [← f5]; exact hp)

theorem step_inactive (env : FlowEnv) (st : Flow) (msg : String)
    (h : st.active = false) : create_flow_step env st msg = (st, []) := by
  unfold create_flow_step
  rw [if_neg (by simp [h])]

/-- A single flow step performs a Terraform create call only when the state
was awaiting confirmation and the user replied affirmatively (and the preview
had been shown). -/
theorem step_create_only_yes (env : FlowEnv) (st : Flow) (msg : String)
    (hInv : FlowInv st)
    (hc : hasCreate (create_flow_step env st msg).2 = true) :
    st.awaiting_confirmation = true ∧ yesWords.contains (pyLower msg) = true ∧
      st.preview_shown = true := by
  obtain ⟨f1, _, _, f4, f5, f6, f7, _, f9⟩ := skipState_fields st
  unfold create_flow_step at hc
  by_cases hact : st.active = true
  case neg =>
    rw [if_neg (by simpa using hact)] at hc
    exact absurd hc (by simp [hasCreate])
  rw [if_pos (by simpa using hact)] at hc
  unfold handle_create_resource_flow at hc
  by_cases hcf : (skipState st).awaiting_confirmation = true
  · rw [if_pos hcf] at hc
    obtain ⟨hyes, hpre⟩ := confirm_create env _ msg hc
    exact ⟨by rw [← f4]; exact hcf, hyes, by rw [← f5]; exact hpre⟩
  · rw [if_neg hcf] at hc
    by_cases hmd : (skipState st).awaiting_param_modification_decision = true
    · rw [if_pos hmd, modifyDecision_no_create] at hc
      exact absurd hc (by simp)
    · rw [if_neg hmd] at hc
      by_cases hnv : (skipState st).awaiting_new_param_value = true
      · rw [if_pos hnv, newValue_no_create] at hc
        exact absurd hc (by simp)
      · rw [if_neg hnv] at hc
        by_cases herr : (skipState st).error_occurred = true
        · rw [if_pos herr, errorStage_no_create env _ msg (by simpa using hmd)] at hc
          exact absurd hc (by simp)
        · rw [if_neg herr] at hc
          have hprev : (skipState st).preview_shown = false := by
            by_contra hp
            have hp' : st.preview_shown = true := by
              rw [← f5]; simpa using hp
            rcases hInv hact hp' with h | h | h | h
            · exact hcf (by rw [f4]; exact h)
            · exact hmd (by rw [f6]; exact h)
            · exact hnv (by rw [f7]; exact h)
            · exact herr (by rw [f9]; exact h)
          rw [collect_no_create env _ msg _ hprev] at hc
          exact absurd hc (by simp)

/-- A single flow step preserves the reachability invariant. -/
theorem step_inv (env : FlowEnv) (st : Flow) (msg : String) (hInv : FlowInv st) :
    FlowInv (create_flow_step env st msg).1 := by
  unfold create_flow_step
  by_cases hact : st.active = true
  case neg =>
    rw [if_neg (by simpa using hact)]
    exact hInv
  rw [if_pos (by simpa using hact)]
  unfold handle_create_resource_flow
  have hInvS := skipState_flowInv st hInv
  obtain ⟨f1, _, _, f4, f5, f6, f7, _, f9⟩ := skipState_fields st
  by_cases hcf : (skipState st).awaiting_confirmation = true
  · rw [if_pos hcf]
    exact confirm_inv env _ msg hInvS
  · rw [if_neg hcf]
    by_cases hmd : (skipState st).awaiting_param_modification_decision = true
    · rw [if_pos hmd]
      exact modifyDecision_inv _ msg hInvS
    · rw [if_neg hmd]
      by_cases hnv : (skipState st).awaiting_new_param_value = true
      · rw [if_pos hnv]
        exact newValue_inv _ msg
      · rw [if_neg hnv]
        by_cases herr : (skipState st).error_occurred = true
        · rw [if_pos herr]
          exact errorStage_inv env _ msg (by simpa using hmd) herr
        · rw [if_neg herr]
          have hprev : (skipState st).preview_shown = false := by
            by_contra hp
            rcases hInvS (by rw [f1]; exact hact) (by simpa using hp) with h | h | h | h
            · exact hcf h
            · exact hmd h
            · exact hnv h
            · exact herr h
          exact collect_inv env _ msg _ hprev

/-- A cancelling reply at the confirmation gate deactivates the flow without
any Terraform call. -/
theorem step_cancel (env : FlowEnv) (st : Flow) (msg : String)
    (hact : st.active = true) (hcf : st.awaiting_confirmation = true)
    (hcw : cancelWords.contains (pyLower msg) = true) :
    (create_flow_step env st msg).1.active = false ∧
      hasCreate (create_flow_step env st msg).2 = false := by
  obtain ⟨f1, _, _, f4, _, _, _, _, _⟩ := skipState_fields st
  unfold create_flow_step
  rw [if_pos (by simpa using hact)]
  unfold handle_create_resource_flow
  rw [if_pos (by rw [f4]; exact hcf)]
  rw [confirm_cancel env _ msg hcw]
  exact ⟨rfl, rfl⟩

theorem runFlow_inactive (env : FlowEnv) (st : Flow) (msgs : List String)
    (h : st.active = false) : runFlow env st msgs = (st, []) := by
  induction msgs with
  | nil => rfl
  | cons m ms ih =>
    show ((runFlow env (create_flow_step env st m).1 ms).1,
      (create_flow_step env st m).2 ++ (runFlow env (create_flow_step env st m).1 ms).2)
        = (st, [])
    rw [step_inactive env st m h]
    simpa using ih

theorem hasCreate_append (a b : List Effect) :
    hasCreate (a ++ b) = (hasCreate a || hasCreate b) := by
  simp [hasCreate, List.any_append]

/-- Along any message sequence, a Terraform create call can only happen at a
step whose pre-state was awaiting confirmation and whose message was an
affirmative reply. -/
theorem runFlow_create_only_yes (env : FlowEnv) :
    ∀ (msgs : List String) (st : Flow), FlowInv st →
      hasCreate (runFlow env st msgs).2 = true →
      ∃ i, i < msgs.length ∧
        (runFlow env st (msgs.take i)).1.awaiting_confirmation = true ∧
        yesWords.contains (pyLower (msgs.getD i "")) = true := by
  intro msgs
  induction msgs with
  | nil =>
    intro st _ hc
    exact absurd hc (by simp [runFlow, hasCreate])
  | cons m ms ih =>
    intro st hInv hc
    have hc2 : (hasCreate (create_flow_step env st m).2 ||
        hasCreate (runFlow env (create_flow_step env st m).1 ms).2) = true := by
      rw [← hasCreate_append]
      exact hc
    rcases Bool.or_eq_true _ _ |>.mp hc2 with h1 | h1
    · obtain ⟨hcf, hyes, _⟩ := step_create_only_yes env st m hInv h1
      exact ⟨0, by simp, by simpa [runFlow] using hcf, by simpa using hyes⟩
    · obtain ⟨i, hlen, hcf, hyes⟩ := ih (create_flow_step env st m).1
        (step_inv env st m hInv) h1
      refine ⟨i + 1, by simpa using hlen, ?_, by simpa using hyes⟩
      rw [List.take_succ_cons]
      exact hcf

/-- C1: in the create-resource flow the Terraform creation runs only after
the confirmation step.  (1) The first call to `_execute_create_resource` only
shows the configuration preview and arms `awaiting_confirmation`; (2) a step
calls `create_<type>` only from a state awaiting confirmation on an
affirmative reply (`yes`/`y`/`confirm`/`proceed`) with the preview shown, and
(3) this holds along every message sequence; (4) a cancelling reply
(`cancel`/`abort`/`no`/`n`) deactivates the flow without any creation, and
(5) once inactive the flow never acts again, so no creation is ever
performed. -/
theorem C1_create_only_after_confirmation (env : FlowEnv) (st : Flow) (msg : String)
    (msgs : List String) :
    (st.preview_shown = false →
      _execute_create_resource env st
        = ({ st with preview_shown := true, awaiting_confirmation := true },
           [Effect.preview])) ∧
    (FlowInv st → hasCreate (create_flow_step env st msg).2 = true →
      st.awaiting_confirmation = true ∧ yesWords.contains (pyLower msg) = true ∧
        st.preview_shown = true) ∧
    (FlowInv st → hasCreate (runFlow env st msgs).2 = true →
      ∃ i, i < msgs.length ∧
        (runFlow env st (msgs.take i)).1.awaiting_confirmation = true ∧
        yesWords.contains (pyLower (msgs.getD i "")) = true) ∧
    (st.active = true → st.awaiting_confirmation = true →
      cancelWords.contains (pyLower msg) = true →
      (create_flow_step env st msg).1.active = false ∧
        hasCreate (create_flow_step env st msg).2 = false) ∧
    (st.active = false → runFlow env st msgs = (st, [])) :=
  ⟨execute_preview env st,
   step_create_only_yes env st msg,
   runFlow_create_only_yes env msgs st,
   step_cancel env st msg,
   runFlow_inactive env st msgs⟩

/-- When the index already sits past every listed parameter, the skip loop is
the identity on the state. -/
theorem skipState_id (s : Flow)
    (h : s.current_param_index
      = some ((RESOURCE_PARAMS.lookup s.resource_type).getD []).length) :
    skipState s = s := by
  unfold skipState
  rw [h]
  show { s with current_param_index := some (skipProvided
      ((RESOURCE_PARAMS.lookup s.resource_type).getD []) s.params
      ((RESOURCE_PARAMS.lookup s.resource_type).getD []).length) } = s
  rw [skip_at_len, ← h]

/-- On a collecting state (no gate armed, no error) a step is the collection
stage run on the skip-advanced state. -/
theorem step_collect (env : FlowEnv) (st : Flow) (msg : String)
    (hact : st.active = true) (hcf : st.awaiting_confirmation = false)
    (hmd : st.awaiting_param_modification_decision = false)
    (hnv : st.awaiting_new_param_value = false)
    (herr : st.error_occurred = false) :
    create_flow_step env st msg
      = collectStage env (skipState st) msg
          ((RESOURCE_PARAMS.lookup st.resource_type).getD []) := by
  obtain ⟨f1, f2, f3, f4, f5, f6, f7, f8, f9⟩ := skipState_fields st
  unfold create_flow_step handle_create_resource_flow
  rw [if_pos hact, if_neg (by simp [f4, hcf]), if_neg (by simp [f6, hmd]),
      if_neg (by simp [f7, hnv]), if_neg (by simp [f9, herr])]

/-- C4: during parameter collection the parameters are requested one at a
time in exactly the `RESOURCE_PARAMS` order for the resource type: every
parameter already present in the flow params is skipped (first conjunct: all
skipped entries are present), the prompted parameter is the first absent one
and the index advances past it (second conjunct), and when every listed
parameter has a value the flow proceeds to the preview/confirmation step
(third conjunct). -/
theorem C4_parameter_collection (env : FlowEnv) (st : Flow) (i j : Nat)
    (ps : List String)
    (hact : st.active = true) (hcf : st.awaiting_confirmation = false)
    (hmd : st.awaiting_param_modification_decision = false)
    (hnv : st.awaiting_new_param_value = false)
    (herr : st.error_occurred = false)
    (hps : ps = (RESOURCE_PARAMS.lookup st.resource_type).getD [])
    (hidx : st.current_param_index = some i)
    (hj : j = skipProvided ps st.params i)
    (hile : i ≤ ps.length) :
    (∀ k, i ≤ k → k < j → hasParam st.params (ps.getD k "") = true) ∧
    (j < ps.length →
      hasParam st.params (ps.getD j "") = false ∧
      (create_flow_step env st "").2 = [Effect.ask (ps.getD j "")] ∧
      (create_flow_step env st "").1.current_param_index = some (j + 1)) ∧
    ((∀ p ∈ ps, hasParam st.params p = true) → st.preview_shown = false →
      create_flow_step env st ""
        = ({ st with current_param_index := some ps.length,
                     preview_shown := true, awaiting_confirmation := true },
           [Effect.preview])) := by
  subst hps
  subst hj
  have hskipeq : skipState st
      = { st with current_param_index := some (skipProvided
          ((RESOURCE_PARAMS.lookup st.resource_type).getD []) st.params i) } := by
    unfold skipState
    rw [hidx]
  have hred : create_flow_step env st ""
      = askNext env (skipState st) ((RESOURCE_PARAMS.lookup st.resource_type).getD [])
          (skipProvided ((RESOURCE_PARAMS.lookup st.resource_type).getD [])
            st.params i) := by
    rw [step_collect env st "" hact hcf hmd hnv herr]
    unfold collectStage
    rw [if_neg (by simp)]
    rw [hskipeq]
    rfl
  refine ⟨fun k h1 h2 => skip_mem _ st.params i k h1 h2, fun hlt => ?_,
    fun hall hprevF => ?_⟩
  · refine ⟨skip_not_mem _ st.params i hlt, ?_, ?_⟩
    · rw [hred]
      exact (askNext_ask env (skipState st) _ _ hlt).1
    · rw [hred]
      exact (askNext_ask env (skipState st) _ _ hlt).2
  · have hlen := skip_all_present ((RESOURCE_PARAMS.lookup st.resource_type).getD [])
      st.params i hile hall
    rw [hred, hlen]
    unfold askNext
    rw [dif_neg (Nat.lt_irrefl _)]
    rw [hskipeq, hlen]
    rw [execute_preview env _ (by exact hprevF)]

/-- C4 witness at a concrete state: a dynamodb flow that already holds
`table_name` skips it and asks for `hash_key_name`, advancing the index. -/
theorem C4_parameter_collection_witness :
    hasParam stCollectW.params
      ((["table_name", "hash_key_name", "hash_key_type"] : List String).getD 1 "")
      = false ∧
    (create_flow_step envW stCollectW "").2
      = [Effect.ask ((["table_name", "hash_key_name", "hash_key_type"] :
          List String).getD 1 "")] ∧
    (create_flow_step envW stCollectW "").1.current_param_index = some (1 + 1) :=
  (C4_parameter_collection envW stCollectW 0 1
    ["table_name", "hash_key_name", "hash_key_type"]
    rfl rfl rfl rfl rfl rfl rfl
    (by simp [skipProvided, hasParam]; decide) (by decide)).2.1 (by decide)

/-- In error recovery with no sub-dialogue armed, the stage is the plain
retry/cancel dispatch on the message. -/
theorem errorStage_idle (env : FlowEnv) (st : Flow) (msg : String)
    (hmd : st.awaiting_param_modification_decision = false)
    (hptm : st.awaiting_param_to_modify = false)
    (hnv : st.awaiting_new_param_value = false) :
    errorStage env st msg =
      if msg ≠ "" && containsStr "retry" (pyLower msg) then
        ({ st with awaiting_param_modification_decision := true }, [Effect.note])
      else if msg ≠ "" && containsStr "cancel" (pyLower msg) then
        ({ st with active := false, error_occurred := false }, [Effect.note])
      else (st, [Effect.note]) := by
  unfold errorStage
  rw [hmd, hptm, hnv]
  simp only [Bool.false_eq_true, if_false]

/-- From an `ErrorIdle` state, a step runs the error-recovery stage. -/
theorem step_error_idle (env : FlowEnv) (st : Flow) (msg : String)
    (hE : ErrorIdle st) : create_flow_step env st msg = errorStage env st msg := by
  obtain ⟨hact, hcf, hmd, hnv, hptm, herr, hprev, hidx⟩ := hE
  unfold create_flow_step handle_create_resource_flow
  rw [skipState_id st hidx]
  rw [if_pos hact, if_neg (by simp [hcf]), if_neg (by simp [hmd]),
      if_neg (by simp [hnv]), if_pos herr]

/-- Replying `proceed` while the modification decision is pending re-shows the
preview and re-arms the confirmation gate. -/
theorem step_modify_proceed (env : FlowEnv) (st : Flow)
    (hact : st.active = true) (hcf : st.awaiting_confirmation = false)
    (hmd : st.awaiting_param_modification_decision = true)
    (hidx : st.current_param_index
      = some ((RESOURCE_PARAMS.lookup st.resource_type).getD []).length) :
    create_flow_step env st "proceed"
      = ({ st with awaiting_param_modification_decision := false,
                   awaiting_confirmation := true }, [Effect.preview]) := by
  unfold create_flow_step handle_create_resource_flow
  rw [skipState_id st hidx]
  rw [if_pos hact, if_neg (by simp [hcf]), if_pos hmd]
  unfold modifyDecisionStage
  rw [if_neg (by decide), if_pos (by decide)]
  rfl

/-- Replying `yes` at the confirmation gate with the preview shown issues the
Terraform create call. -/
theorem step_confirm_yes (env : FlowEnv) (st : Flow)
    (hact : st.active = true) (hcf : st.awaiting_confirmation = true)
    (hprev : st.preview_shown = true)
    (hidx : st.current_param_index
      = some ((RESOURCE_PARAMS.lookup st.resource_type).getD []).length) :
    (create_flow_step env st "yes").2 = [Effect.create st.params, Effect.note] := by
  unfold create_flow_step handle_create_resource_flow
  rw [skipState_id st hidx]
  rw [if_pos hact, if_pos hcf]
  unfold confirmStage
  rw [if_pos (by decide)]
  exact execute_effects env _ hprev

/-- Along any message sequence from an `ErrorIdle` state in which no message
mentions `retry`, no Terraform create call ever happens. -/
theorem error_no_retry_no_create (env : FlowEnv) (st : Flow) (hE : ErrorIdle st)
    (msgs : List String)
    (hm : ∀ m ∈ msgs, containsStr "retry" (pyLower m) = false) :
    hasCreate (runFlow env st msgs).2 = false := by
  obtain ⟨hact, hcf, hmd, hnv, hptm, herr, hprev, hidx⟩ := hE
  suffices h : ∀ ms : List String,
      (∀ m ∈ ms, containsStr "retry" (pyLower m) = false) →
      ∀ s : Flow, (s = st ∨ s.active = false) →
        hasCreate (runFlow env s ms).2 = false by
    exact h msgs hm st (Or.inl rfl)
  intro ms
  induction ms with
  | nil => intro _ s _; rfl
  | cons m ms2 ih =>
    intro hms s hs
    have hm1 : containsStr "retry" (pyLower m) = false := hms m (by simp)
    have hrest : ∀ m2 ∈ ms2, containsStr "retry" (pyLower m2) = false :=
      fun m2 h2 => hms m2 (List.mem_cons_of_mem _ h2)
    show hasCreate ((create_flow_step env s m).2
        ++ (runFlow env (create_flow_step env s m).1 ms2).2) = false
    rw [hasCreate_append, Bool.or_eq_false_iff]
    cases hs with
    | inl hseq =>
      subst hseq
      have hred : create_flow_step env s m
          = if m ≠ "" && containsStr "cancel" (pyLower m) then
              ({ s with active := false, error_occurred := false }, [Effect.note])
            else (s, [Effect.note]) := by
        rw [step_error_idle env s m ⟨hact, hcf, hmd, hnv, hptm, herr, hprev, hidx⟩,
            errorStage_idle env s m hmd hptm hnv, if_neg (by simp [hm1])]
      rw [hred]
      by_cases hcanc : (m ≠ "" && containsStr "cancel" (pyLower m)) = true
      · rw [if_pos hcanc]
        exact ⟨rfl, ih hrest _ (Or.inr rfl)⟩
      · rw [if_neg hcanc]
        exact ⟨rfl, ih hrest _ (Or.inl rfl)⟩
    | inr hina =>
      rw [step_inactive env s m hina]
      exact ⟨rfl, ih hrest _ (Or.inr hina)⟩

/-- From an `ErrorIdle` state, `retry` followed by `proceed` and `yes` reaches
another Terraform create call with the same parameters. -/
theorem error_retry_trace (env : FlowEnv) (st : Flow) (hE : ErrorIdle st) :
    Effect.create st.params ∈ (runFlow env st ["retry", "proceed", "yes"]).2 := by
  obtain ⟨hact, hcf, hmd, hnv, hptm, herr, hprev, hidx⟩ := hE
  have h1 : create_flow_step env st "retry"
      = ({ st with awaiting_param_modification_decision := true }, [Effect.note]) := by
    rw [step_error_idle env st "retry" ⟨hact, hcf, hmd, hnv, hptm, herr, hprev, hidx⟩,
        errorStage_idle env st "retry" hmd hptm hnv, if_pos (by decide)]
  have h2 : create_flow_step env
      ({ st with awaiting_param_modification_decision := true } : Flow) "proceed"
      = (({ st with awaiting_param_modification_decision := false, awaiting_confirmation := true } : Flow), [Effect.preview]) :=
    step_modify_proceed env _ hact hcf rfl hidx
  have h3 : (create_flow_step env
      ({ st with awaiting_param_modification_decision := false, awaiting_confirmation := true } : Flow) "yes").2
      = [Effect.create st.params, Effect.note] :=
    step_confirm_yes env _ hact rfl hprev hidx
  show Effect.create st.params ∈
    (create_flow_step env st "retry").2 ++
      ((create_flow_step env (create_flow_step env st "retry").1 "proceed").2 ++
        ((create_flow_step env
          (create_flow_step env (create_flow_step env st "retry").1 "proceed").1
          "yes").2 ++ []))
  simp only [h1, h2, h3]
  simp

/-- C3: a failed creation attempt enters error recovery instead of ending the
flow: (1) on an exception from the create call the flow keeps `active`, sets
`error_occurred`, and the collected parameters are unchanged; from the
resulting idle error state (2) `cancel` deactivates the flow clearing the
error, (3) `retry` re-opens the parameter-modification dialogue, (4) along any
message sequence never mentioning `retry` no further create call happens, and
(5) `retry` then `proceed` then `yes` reaches another create call with the
same parameters. -/
theorem C3_error_recovery (env : FlowEnv) (st : Flow) (e : String)
    (msgs : List String) :
    (st.preview_shown = true → env.createResult st.params = Except.error e →
      _execute_create_resource env st
        = ({ st with error_occurred := true },
           [Effect.create st.params, Effect.note])) ∧
    (ErrorIdle st →
      create_flow_step env st "cancel"
        = ({ st with active := false, error_occurred := false }, [Effect.note])) ∧
    (ErrorIdle st →
      create_flow_step env st "retry"
        = ({ st with awaiting_param_modification_decision := true },
           [Effect.note])) ∧
    (ErrorIdle st → (∀ m ∈ msgs, containsStr "retry" (pyLower m) = false) →
      hasCreate (runFlow env st msgs).2 = false) ∧
    (ErrorIdle st →
      Effect.create st.params ∈ (runFlow env st ["retry", "proceed", "yes"]).2) := by
  refine ⟨fun h hc => execute_fail env st e h hc, fun hE => ?_, fun hE => ?_,
    fun hE hm => error_no_retry_no_create env st hE msgs hm, error_retry_trace env st⟩
  · obtain ⟨hact, hcf, hmd, hnv, hptm, herr, hprev, hidx⟩ := hE
    rw [step_error_idle env st "cancel" ⟨hact, hcf, hmd, hnv, hptm, herr, hprev, hidx⟩,
        errorStage_idle env st "cancel" hmd hptm hnv,
        if_neg (by decide), if_pos (by decide)]
  · obtain ⟨hact, hcf, hmd, hnv, hptm, herr, hprev, hidx⟩ := hE
    rw [step_error_idle env st "retry" ⟨hact, hcf, hmd, hnv, hptm, herr, hprev, hidx⟩,
        errorStage_idle env st "retry" hmd hptm hnv, if_pos (by decide)]

/-- C3 witness at a concrete state: a failing create marks the error, and from
the error state `cancel` deactivates the flow. -/
theorem C3_error_recovery_witness :
    (_execute_create_resource envWfail stErrorW
      = ({ stErrorW with error_occurred := true },
         [Effect.create stErrorW.params, Effect.note])) ∧
    (create_flow_step envWfail stErrorW "cancel"
      = ({ stErrorW with active := false, error_occurred := false },
         [Effect.note])) :=
  ⟨(C3_error_recovery envWfail stErrorW "AccessDenied" []).1 rfl rfl,
   (C3_error_recovery envWfail stErrorW "AccessDenied" []).2.1
     ⟨rfl, rfl, rfl, rfl, rfl, rfl, rfl, rfl⟩⟩

/-- C1 witness at a concrete state: at the confirmation gate, replying `no`
deactivates the flow and no create call is made. -/
theorem C1_create_only_after_confirmation_witness :
    (create_flow_step envW stConfirmW "no").1.active = false ∧
      hasCreate (create_flow_step envW stConfirmW "no").2 = false :=
  (C1_create_only_after_confirmation envW stConfirmW "no" []).2.2.2.1
    rfl rfl (by decide)

end AwsAiManager
